import Mathlib

/-!
# jittertrap: the terminal front end (`main.c`)

A shallow embedding of `main.c`.  Every C function becomes a Lean function that
returns the list of external calls it makes (curses, pcap, libc, flow engine)
together with its C result.  The flow engine (`flow.h`, `decode.h`), the interval
table (`intervals.h`) and the timespec helpers (`timeywimey.h`) are not part of
`main.c`; the engine is taken as a parameter, the timespec helpers are modelled.
C `int` values are mathematical integers; C division is truncating (`Int.tdiv`).
-/

namespace JitterTrap

/-! ## Constants of `main.c` and of the system headers it uses -/

/-- Status line used for error messages (`#define ERR_LINE_OFFSET 2`). -/
def ERR_LINE_OFFSET : Int := 2

/-- First line of the flow table (`#define TOP_N_LINE_OFFSET 5`). -/
def TOP_N_LINE_OFFSET : Int := 5

/-- First header line of the table (`#define HEADER1`). -/
def HEADER1 : String := "                                 Source|SPort|Proto"

/-- Ethertype of IPv4 in `net/ethernet.h`. -/
def ETHERTYPE_IP : Int := 0x0800

/-- Ethertype of IPv6 in `net/ethernet.h`. -/
def ETHERTYPE_IPV6 : Int := 0x86dd

/-- Value `getch` returns when no key is pending (curses `ERR`). -/
def ERR : Int := -1

/-- Link type of Ethernet in `pcap.h`. -/
def DLT_EN10MB : Int := 1

/-! ## Calls observed from outside -/

/-- An argument handed to a printf-style call.  `ipv4`/`ipv6` stand for the text
`inet_ntoa`/`inet_ntop` produce for an address, `cstr` for a `char *` that may be
`NULL`, `indeterminate` for the value of an object read before it was assigned. -/
inductive Arg where
  | int (v : Int)
  | str (s : String)
  | cstr (s : Option String)
  | ipv4 (addr : Nat)
  | ipv6 (addr : Nat)
  | indeterminate
  deriving DecidableEq, Repr

/-- A reading of `struct timespec`. -/
structure timespec where
  tv_sec : Int
  tv_nsec : Int
  deriving DecidableEq, Repr

/-- One external call made by the program, in the order of the C source.  `Pkt`
is the engine's `struct flow_pkt`. -/
inductive Event (Pkt : Type) where
  | mvprintw (y x : Int) (fmt : String) (args : List Arg)
  | mvaddch (y x : Int) (ch : String)
  | attron_bold
  | attroff_bold
  | refresh
  | endwin
  | initscr
  | raw
  | keypad
  | noecho
  | nodelay
  | fprintf_stderr (fmt : String) (args : List Arg)
  | pcap_lookupdev
  | pcap_open_live (dev : String)
  | pcap_datalink
  | pcap_setnonblock
  | pcap_get_selectable_fd
  | pcap_close
  | clock_gettime (t : timespec)
  | ppoll (ret : Int)
  | pcap_dispatch (cnt : Int)
  | getch (ch : Int)
  | update_stats_tables (pkt : Pkt)
  | call_print_top_n (stop : Int)
  deriving DecidableEq, Repr

/-! ## `print_tp_hdrs` -/

set_option linter.unusedVariables false in
/-- The C function `print_tp_hdrs`: picks the unit from `tp1`, draws the two
header lines in bold and returns the divisor.  The comparisons against `1E9`,
`1E6`, `1E3` are exact on `int` operands; `tp2` is not used by the C function. -/
def print_tp_hdrs {Pkt : Type} (tp1 interval1 tp2 interval2 : Int) :
    Int × List (Event Pkt) :=
  let ud : String × Int :=
    if tp1 > 1000000000 then ("GB/s", 1000000000)
    else if tp1 > 1000000 then ("MB/s", 1000000)
    else if tp1 > 1000 then ("kB/s", 1000)
    else ("B/s", 1)
  (ud.2,
   [Event.attron_bold,
    Event.mvprintw TOP_N_LINE_OFFSET 1 HEADER1 [],
    Event.mvprintw (TOP_N_LINE_OFFSET + 1) 1
      "                            Destination|DPort|%4s@%3dms|%4s@%3dms          "
      [Arg.str ud.1, Arg.int (Int.tdiv interval1 1000),
       Arg.str ud.1, Arg.int (Int.tdiv interval2 1000)],
    Event.attroff_bold])

/-! ## The flow engine, as `main.c` sees it -/

/-- The fields of `struct flow_record` (`flow.h`) that `main.c` reads:
`flow.ethertype`, `flow.src_ip`, `flow.dst_ip`, `flow.src_ip6`, `flow.dst_ip6`,
`flow.sport`, `flow.dport`, `flow.proto` and `size`. -/
structure flow_record where
  ethertype : Int
  src_ip : Nat
  dst_ip : Nat
  src_ip6 : Nat
  dst_ip6 : Nat
  sport : Int
  dport : Int
  proto : Int
  size : Int
  deriving DecidableEq, Repr

/-- The array `flow[i][interval]` of `struct top_flows`. -/
abbrev top_flows := Nat → Nat → flow_record

/-- The record `memset(t5, 0, ...)` leaves in every slot. -/
def zero_record : flow_record := ⟨0, 0, 0, 0, 0, 0, 0, 0, 0⟩

/-- The functions and tables of `flow.h`, `decode.h` and `intervals.h` that
`main.c` calls; their bodies are not part of `main.c`.  `Table` is the engine's
flow table, `Pkt` its `struct flow_pkt`, `Frame` a captured frame (the
`pcap_hdr` and `wirebits` handed to the callback).  `decode_ethernet` returns
its C result, the packet it filled in and the text it left in `errstr`. -/
structure Engine (Table Pkt Frame : Type) where
  zp : Pkt
  decode_ethernet : Frame → Pkt → Int × Pkt × String
  update_stats_tables : Pkt → Table → Table
  get_flow_count : Table → Int
  get_top5 : Table → top_flows → top_flows
  intervals : Nat → Int

/-- The table `protos[IPPROTO_MAX]`; an entry the initialiser leaves out is `NULL`. -/
def protos (p : Int) : Option String :=
  if p = 6 then some "TCP"
  else if p = 17 then some "UDP"
  else if p = 1 then some "ICMP"
  else if p = 58 then some "ICMP6"
  else if p = 0 then some "IP"
  else if p = 2 then some "IGMP"
  else none

/-! ## `print_top_n` -/

/-- The value of the C expression `a / div` where `div` is the block-scoped
`int div;` of the loop body: `none` is the object before any assignment in the
current execution of the block (its value is indeterminate).  Dividing by an
unassigned or zero divisor is undefined in C; the cell is then recorded as
`Arg.indeterminate` and the drawing goes on. -/
def c_div (a : Int) (div : Option Int) : Arg :=
  match div with
  | some d => if d = 0 then Arg.indeterminate else Arg.int (Int.tdiv a d)
  | none => Arg.indeterminate

/-- The body of the `for` loop of `print_top_n` at index `i` with row offset
`row`: returns the calls made and the row offset afterwards.  `int div;` is
declared inside the body, so it starts unassigned in every iteration and is
assigned only under `if (0 == i)`. -/
def print_top_n_body {Pkt : Type} (intervals : Nat → Int) (t5 : top_flows)
    (i : Nat) (row : Int) : List (Event Pkt) × Int :=
  let interval1 := 7
  let interval2 := 3
  let fte1 := t5 i interval1
  let fte2 := t5 i interval2
  let ip_src := Arg.ipv4 fte1.src_ip
  let ip_dst := Arg.ipv4 fte1.dst_ip
  let ip6_src := Arg.ipv6 fte1.src_ip6
  let ip6_dst := Arg.ipv6 fte1.dst_ip6
  let hdr : Option Int × List (Event Pkt) :=
    if 0 = i then
      let r := @print_tp_hdrs Pkt fte1.size (intervals interval1) fte2.size
        (intervals interval2)
      (some r.1, r.2)
    else (none, [])
  let div := hdr.1
  if fte1.ethertype = ETHERTYPE_IP then
    (hdr.2 ++
      [Event.mvaddch (TOP_N_LINE_OFFSET + row + 0) 0 "ACS_ULCORNER",
       Event.mvaddch (TOP_N_LINE_OFFSET + row + 1) 0 "ACS_LLCORNER",
       Event.mvprintw (TOP_N_LINE_OFFSET + row + 0) 1 "%39s" [ip_src],
       Event.mvprintw (TOP_N_LINE_OFFSET + row + 1) 1 "%39s" [ip_dst],
       Event.mvprintw (TOP_N_LINE_OFFSET + row + 0) 40 "%6d" [Arg.int fte1.sport],
       Event.mvprintw (TOP_N_LINE_OFFSET + row + 1) 40 "%6d" [Arg.int fte1.dport],
       Event.mvprintw (TOP_N_LINE_OFFSET + row + 0) 47 "%s" [Arg.cstr (protos fte1.proto)],
       Event.mvprintw (TOP_N_LINE_OFFSET + row + 1) 47 "%10d %10d"
         [c_div fte1.size div, c_div fte2.size div],
       Event.mvprintw (TOP_N_LINE_OFFSET + row + 2) 0 "%80s" [Arg.str " "]],
     row + 3)
  else if fte1.ethertype = ETHERTYPE_IPV6 then
    (hdr.2 ++
      [Event.mvaddch (TOP_N_LINE_OFFSET + row + 0) 0 "ACS_ULCORNER",
       Event.mvaddch (TOP_N_LINE_OFFSET + row + 1) 0 "ACS_LLCORNER",
       Event.mvprintw (TOP_N_LINE_OFFSET + row + 0) 1 "%39s" [ip6_src],
       Event.mvprintw (TOP_N_LINE_OFFSET + row + 1) 1 "%39s" [ip6_dst],
       Event.mvprintw (TOP_N_LINE_OFFSET + row + 0) 40 "%6d" [Arg.int fte1.sport],
       Event.mvprintw (TOP_N_LINE_OFFSET + row + 1) 40 "%6d" [Arg.int fte1.dport],
       Event.mvprintw (TOP_N_LINE_OFFSET + row + 0) 47 "%s" [Arg.cstr (protos fte1.proto)],
       Event.mvprintw (TOP_N_LINE_OFFSET + row + 1) 47 "%10d %10d"
         [c_div fte1.size div, c_div fte2.size div],
       Event.mvprintw (TOP_N_LINE_OFFSET + row + 2) 0 "%80s" [Arg.str " "]],
     row + 3)
  else
    (hdr.2 ++
      [Event.mvprintw ERR_LINE_OFFSET 0 "%80s" [Arg.str " "],
       Event.mvprintw ERR_LINE_OFFSET 0 "Unknown ethertype: %d" [Arg.int fte1.ethertype]],
     row)

/-- The loop `for (int i = 0; i < flowcnt && i < 5; i++)` of `print_top_n`,
entered at index `i` with row offset `row`: one entry per iteration, the index
examined and the calls made for it. -/
def print_top_n_loop {Pkt : Type} (intervals : Nat → Int) (t5 : top_flows)
    (flowcnt : Int) (i : Nat) (row : Int) : List (Nat × List (Event Pkt)) :=
  if (i : Int) < flowcnt ∧ i < 5 then
    (i, (@print_top_n_body Pkt intervals t5 i row).1) ::
      print_top_n_loop intervals t5 flowcnt (i + 1)
        (@print_top_n_body Pkt intervals t5 i row).2
  else []
termination_by 5 - i
decreasing_by omega

/-- The loop that clears the table: `mvprintw(i, 0, "%80s", " ")` for `i` from
`TOP_N_LINE_OFFSET + row` up to `TOP_N_LINE_OFFSET + row + 3 * stop` inclusive
(`3 * stop` taken without overflow). -/
def clear_table {Pkt : Type} (row stop : Int) : List (Event Pkt) :=
  (List.range (3 * stop + 1).toNat).map
    (fun (k : Nat) =>
      Event.mvprintw (TOP_N_LINE_OFFSET + row + (k : Int)) 0 "%80s" [Arg.str " "])

/-- The C function `print_top_n`: the calls it makes on the flow table `tbl`. -/
def print_top_n {Table Pkt Frame : Type} (E : Engine Table Pkt Frame) (tbl : Table)
    (stop : Int) : List (Event Pkt) :=
  let row := 3
  let flowcnt := E.get_flow_count tbl
  let t5 := E.get_top5 tbl (fun _ _ => zero_record)
  [Event.mvprintw 0 50 "%5d active flows" [Arg.int flowcnt]] ++
    clear_table row stop ++
    ((@print_top_n_loop Pkt E.intervals t5 flowcnt 0 row).map Prod.snd).flatten

/-! ## `handle_packet` and the drain -/

/-- The C function `handle_packet`: the flow table afterwards and the calls made. -/
def handle_packet {Table Pkt Frame : Type} (E : Engine Table Pkt Frame) (frame : Frame)
    (tbl : Table) : Table × List (Event Pkt) :=
  let r := E.decode_ethernet frame E.zp
  if 0 = r.1 then
    (E.update_stats_tables r.2.1 tbl, [Event.update_stats_tables r.2.1])
  else
    (tbl, [Event.mvprintw ERR_LINE_OFFSET 0 "%-80s" [Arg.str r.2.2]])

/-- The callback run over a sequence of frames, one after the other. -/
def handle_packets {Table Pkt Frame : Type} (E : Engine Table Pkt Frame) :
    List Frame → Table → Table × List (Event Pkt)
  | [], tbl => (tbl, [])
  | f :: fs, tbl =>
    ((handle_packets E fs (handle_packet E f tbl).1).1,
     (handle_packet E f tbl).2 ++ (handle_packets E fs (handle_packet E f tbl).1).2)

/-- The libpcap call `pcap_dispatch(handle, cnt, handle_packet, NULL)` on a
capture handle holding `queued` frames: the callback runs on at most `cnt` of them. -/
def pcap_dispatch {Table Pkt Frame : Type} (E : Engine Table Pkt Frame) (cnt : Int)
    (queued : List Frame) (tbl : Table) : Table × List (Event Pkt) :=
  ((handle_packets E (queued.take cnt.toNat) tbl).1,
   Event.pcap_dispatch cnt :: (handle_packets E (queued.take cnt.toNat) tbl).2)

/-! ## Time -/

/-- Modelled from the spec: `ts_add` is declared in `timeywimey.h` and its body
is not part of `main.c`; it is taken to be the sum of two timespecs with the
nanosecond carry, which is what makes `print_timeout` the "render interval"
deadline of the loop. -/
def ts_add (a b : timespec) : timespec :=
  if a.tv_nsec + b.tv_nsec ≥ 1000000000 then
    ⟨a.tv_sec + b.tv_sec + 1, a.tv_nsec + b.tv_nsec - 1000000000⟩
  else ⟨a.tv_sec + b.tv_sec, a.tv_nsec + b.tv_nsec⟩

/-- Modelled from the spec: `ts_cmp` is declared in `timeywimey.h` and its body
is not part of `main.c`; it is taken to be the three-way comparison, negative
when `a` is earlier than `b`, so that `0 > ts_cmp(print_timeout, now)` reads
"the render interval has elapsed". -/
def ts_cmp (a b : timespec) : Int :=
  if a.tv_sec < b.tv_sec then -1
  else if a.tv_sec > b.tv_sec then 1
  else if a.tv_nsec < b.tv_nsec then -1
  else if a.tv_nsec > b.tv_nsec then 1
  else 0

/-- The local `poll_timeout = {.tv_sec = 0, .tv_nsec = 5E6}` of `grab_packets`. -/
def poll_timeout : timespec := ⟨0, 5000000⟩

/-- Nanoseconds a timespec stands for. -/
def timespec.to_ns (t : timespec) : Int := t.tv_sec * 1000000000 + t.tv_nsec

/-- A timespec as `clock_gettime` delivers it: `0 <= tv_nsec < 10^9`. -/
def timespec.normal (t : timespec) : Prop := 0 ≤ t.tv_nsec ∧ t.tv_nsec < 1000000000

instance (t : timespec) : Decidable t.normal := by
  unfold timespec.normal; infer_instance

/-! ## `grab_packets` -/

/-- What the outside world answers during one iteration of the loop of
`grab_packets`: the return value of `ppoll`, the frames queued on the capture
handle, the return value of `getch`, and the reading `clock_gettime` gives if
it is asked. -/
structure Tick (Frame : Type) where
  ppoll : Int
  queued : List Frame
  ch : Int
  now : timespec

/-- One iteration of `while (1)` in `grab_packets`: whether the function
returned, `print_timeout` and the flow table afterwards, and the calls made.
The key `q` is the character code 113. -/
def grab_packets_body {Table Pkt Frame : Type} (E : Engine Table Pkt Frame)
    (t : Tick Frame) (print_timeout : timespec) (tbl : Table) :
    Bool × timespec × Table × List (Event Pkt) :=
  let d : Table × List (Event Pkt) :=
    if t.ppoll ≠ 0 then pcap_dispatch E 100000 t.queued tbl else (tbl, [])
  let pre : List (Event Pkt) := Event.ppoll t.ppoll :: (d.2 ++ [Event.getch t.ch])
  if t.ch ≠ ERR ∧ t.ch = 113 then
    (true, print_timeout, d.1, pre ++ [Event.endwin])
  else if 0 > ts_cmp print_timeout t.now then
    (false, ts_add print_timeout poll_timeout, d.1,
     pre ++ [Event.clock_gettime t.now, Event.call_print_top_n 5] ++
       print_top_n E d.1 5 ++ [Event.refresh])
  else
    (false, print_timeout, d.1, pre ++ [Event.clock_gettime t.now])

/-- The loop `while (1)` of `grab_packets` run against a script of ticks:
whether the function returned before the script ended, the flow table, and the
calls made. -/
def grab_packets_loop {Table Pkt Frame : Type} (E : Engine Table Pkt Frame) :
    List (Tick Frame) → timespec → Table → Bool × Table × List (Event Pkt)
  | [], _, tbl => (false, tbl, [])
  | t :: rest, print_timeout, tbl =>
    if (grab_packets_body E t print_timeout tbl).1 then
      (true, (grab_packets_body E t print_timeout tbl).2.2.1,
       (grab_packets_body E t print_timeout tbl).2.2.2)
    else
      ((grab_packets_loop E rest (grab_packets_body E t print_timeout tbl).2.1
          (grab_packets_body E t print_timeout tbl).2.2.1).1,
       (grab_packets_loop E rest (grab_packets_body E t print_timeout tbl).2.1
          (grab_packets_body E t print_timeout tbl).2.2.1).2.1,
       (grab_packets_body E t print_timeout tbl).2.2.2 ++
         (grab_packets_loop E rest (grab_packets_body E t print_timeout tbl).2.1
            (grab_packets_body E t print_timeout tbl).2.2.1).2.2)

/-- The C function `grab_packets`, entered when the monotonic clock reads `t0`. -/
def grab_packets {Table Pkt Frame : Type} (E : Engine Table Pkt Frame) (t0 : timespec)
    (ticks : List (Tick Frame)) (tbl : Table) : Bool × Table × List (Event Pkt) :=
  ((grab_packets_loop E ticks (ts_add t0 poll_timeout) tbl).1,
   (grab_packets_loop E ticks (ts_add t0 poll_timeout) tbl).2.1,
   Event.clock_gettime t0 :: (grab_packets_loop E ticks (ts_add t0 poll_timeout) tbl).2.2)

/-! ## `init_curses` and `main` -/

/-- The C function `init_curses`. -/
def init_curses {Pkt : Type} : List (Event Pkt) :=
  [Event.initscr, Event.raw, Event.keypad, Event.noecho, Event.nodelay]

/-- What libpcap answers during setup: the device `pcap_lookupdev` finds (`none`
is `NULL`), whether `pcap_open_live` gives a handle for a device, the results of
`pcap_datalink`, `pcap_setnonblock` and `pcap_get_selectable_fd`, and the text
left in `errbuf`. -/
structure Setup where
  lookupdev : Option String
  open_live : String → Bool
  datalink : Int
  setnonblock : Int
  selectable_fd : Int
  errbuf : String

/-- The C function `main`: its exit status (`none` while the interactive loop
has not returned by the end of the script) and the calls made.  `argv[1]` is
`none` when the vector has no such entry. -/
def main {Table Pkt Frame : Type} (E : Engine Table Pkt Frame) (S : Setup)
    (argc : Int) (argv : List String) (t0 : timespec) (ticks : List (Tick Frame))
    (tbl : Table) : Option Int × List (Event Pkt) :=
  let sel : Option String × List (Event Pkt) :=
    if argc = 2 then (argv[1]?, []) else (S.lookupdev, [Event.pcap_lookupdev])
  match sel.1 with
  | none =>
    (some 2, sel.2 ++
      [Event.fprintf_stderr "Couldn't find default device: %s\n" [Arg.str S.errbuf]])
  | some dev =>
    if S.open_live dev = false then
      (some 2, sel.2 ++
        [Event.pcap_open_live dev,
         Event.fprintf_stderr "Couldn't open device %s: %s\n" [Arg.str dev, Arg.str S.errbuf]])
    else if S.datalink ≠ DLT_EN10MB then
      (some 2, sel.2 ++
        [Event.pcap_open_live dev, Event.pcap_datalink,
         Event.fprintf_stderr "Device %s doesn't provide Ethernet headers - not supported\n"
           [Arg.str dev]])
    else if S.setnonblock ≠ 0 then
      (some 2, sel.2 ++
        [Event.pcap_open_live dev, Event.pcap_datalink, Event.pcap_setnonblock,
         Event.fprintf_stderr "Non-blocking mode failed: %s\n" [Arg.str S.errbuf]])
    else if -1 = S.selectable_fd then
      (some 2, sel.2 ++
        [Event.pcap_open_live dev, Event.pcap_datalink, Event.pcap_setnonblock,
         Event.pcap_get_selectable_fd,
         Event.fprintf_stderr "pcap handle not selectable.\n" []])
    else
      let head : List (Event Pkt) :=
        sel.2 ++
          [Event.pcap_open_live dev, Event.pcap_datalink, Event.pcap_setnonblock,
           Event.pcap_get_selectable_fd] ++
          init_curses ++
          [Event.mvprintw 0 0 "Device:" [], Event.attron_bold,
           Event.mvprintw 0 10 "%s\n" [Arg.str dev], Event.attroff_bold]
      if (grab_packets E t0 ticks tbl).1 then
        (some 0, head ++ (grab_packets E t0 ticks tbl).2.2 ++ [Event.pcap_close])
      else
        (none, head ++ (grab_packets E t0 ticks tbl).2.2)

/-! ## Reading a trace -/

/-- Drawing calls: `mvprintw`, `mvaddch`, `attron`, `attroff`. -/
def Event.is_draw {Pkt : Type} : Event Pkt → Bool
  | Event.mvprintw _ _ _ _ => true
  | Event.mvaddch _ _ _ => true
  | Event.attron_bold => true
  | Event.attroff_bold => true
  | _ => false

/-- Calls of `update_stats_tables`. -/
def Event.is_update {Pkt : Type} : Event Pkt → Bool
  | Event.update_stats_tables _ => true
  | _ => false

/-- Calls of `pcap_dispatch`. -/
def Event.is_dispatch {Pkt : Type} : Event Pkt → Bool
  | Event.pcap_dispatch _ => true
  | _ => false

/-- Calls that belong to the interactive mode: those of `init_curses` and of
`grab_packets` (curses set-up, the wait, the drain, the key read, the clock). -/
def Event.is_interactive {Pkt : Type} : Event Pkt → Bool
  | Event.initscr => true
  | Event.raw => true
  | Event.keypad => true
  | Event.noecho => true
  | Event.nodelay => true
  | Event.clock_gettime _ => true
  | Event.ppoll _ => true
  | Event.pcap_dispatch _ => true
  | Event.getch _ => true
  | Event.endwin => true
  | Event.refresh => true
  | Event.call_print_top_n _ => true
  | Event.update_stats_tables _ => true
  | Event.mvprintw _ _ _ _ => true
  | Event.mvaddch _ _ _ => true
  | Event.attron_bold => true
  | Event.attroff_bold => true
  | _ => false

/-- The clock readings that triggered a call of `print_top_n`: for every
`call_print_top_n` in the trace, the latest `clock_gettime` reading before it. -/
def render_readings {Pkt : Type} : Option timespec → List (Event Pkt) → List timespec
  | _, [] => []
  | _, Event.clock_gettime t :: es => render_readings (some t) es
  | some t, Event.call_print_top_n _ :: es => t :: render_readings (some t) es
  | last, _ :: es => render_readings last es

/-- The nine calls that draw one table row at row offset `row`: two corner
characters, source and destination address, the two ports, the protocol name,
the two scaled rates and a blank separator line. -/
def row_block {Pkt : Type} (src dst : Arg) (fte1 fte2 : flow_record) (div : Option Int)
    (row : Int) : List (Event Pkt) :=
  [Event.mvaddch (TOP_N_LINE_OFFSET + row + 0) 0 "ACS_ULCORNER",
   Event.mvaddch (TOP_N_LINE_OFFSET + row + 1) 0 "ACS_LLCORNER",
   Event.mvprintw (TOP_N_LINE_OFFSET + row + 0) 1 "%39s" [src],
   Event.mvprintw (TOP_N_LINE_OFFSET + row + 1) 1 "%39s" [dst],
   Event.mvprintw (TOP_N_LINE_OFFSET + row + 0) 40 "%6d" [Arg.int fte1.sport],
   Event.mvprintw (TOP_N_LINE_OFFSET + row + 1) 40 "%6d" [Arg.int fte1.dport],
   Event.mvprintw (TOP_N_LINE_OFFSET + row + 0) 47 "%s" [Arg.cstr (protos fte1.proto)],
   Event.mvprintw (TOP_N_LINE_OFFSET + row + 1) 47 "%10d %10d"
     [c_div fte1.size div, c_div fte2.size div],
   Event.mvprintw (TOP_N_LINE_OFFSET + row + 2) 0 "%80s" [Arg.str " "]]

/-- The divisor in scope in iteration `i` and the header calls made in it: the
result of `print_tp_hdrs` on the record at index 0, nothing at a later index. -/
def header_part {Pkt : Type} (intervals : Nat → Int) (t5 : top_flows) (i : Nat) :
    Option Int × List (Event Pkt) :=
  if 0 = i then
    (some (@print_tp_hdrs Pkt (t5 i 7).size (intervals 7) (t5 i 3).size (intervals 3)).1,
     (@print_tp_hdrs Pkt (t5 i 7).size (intervals 7) (t5 i 3).size (intervals 3)).2)
  else (none, [])

/-- Clock readings and calls of `print_top_n`: the calls `render_readings` looks at. -/
def Event.is_clock_or_render {Pkt : Type} : Event Pkt → Bool
  | Event.clock_gettime _ => true
  | Event.call_print_top_n _ => true
  | _ => false

/-- The ticks an execution of the loop consumes: all up to and including the
first one whose key is `q` (code 113). -/
def consumed {Frame : Type} : List (Tick Frame) → List (Tick Frame)
  | [] => []
  | t :: rest => if t.ch = 113 then [t] else t :: consumed rest

/-- Step (b) of an iteration as the code performs it: the table afterwards and
the calls made by `if (ppoll(...)) pcap_dispatch(handle, 100000, ...)`. -/
def drain {Table Pkt Frame : Type} (E : Engine Table Pkt Frame) (t : Tick Frame)
    (tbl : Table) : Table × List (Event Pkt) :=
  if t.ppoll ≠ 0 then pcap_dispatch E 100000 t.queued tbl else (tbl, [])

/-- The call of `pcap_lookupdev` that `main` makes before opening the device:
none when `argc == 2`, one otherwise. -/
def lookup_calls {Pkt : Type} (argc : Int) : List (Event Pkt) :=
  if argc = 2 then [] else [Event.pcap_lookupdev]

/-- All setup steps of `main` succeed: a device is found, `pcap_open_live`
gives a handle for it, the link type is Ethernet, non-blocking mode is enabled and
a selectable descriptor is obtained. -/
def setup_succeeds (S : Setup) (argc : Int) (argv : List String) : Prop :=
  ∃ dev, (if argc = 2 then argv[1]? else S.lookupdev) = some dev ∧
    S.open_live dev = true ∧ S.datalink = DLT_EN10MB ∧ S.setnonblock = 0 ∧
    S.selectable_fd ≠ -1

/-! ## A stand-in engine for concrete runs -/

/-- A stand-in engine used only to instantiate the theorems at concrete inputs:
a frame is its list of bytes, decoding fails on fewer than 14 bytes and
otherwise reads the ethertype from bytes 12 and 13, the table is the list of
decoded packets, and the top flows are its first entries at every interval. -/
def demo_engine : Engine (List flow_record) flow_record (List Nat) where
  zp := zero_record
  decode_ethernet := fun frame pkt =>
    if frame.length < 14 then (-1, pkt, "Ethernet header truncated")
    else (0, { pkt with ethertype := (frame.getD 12 0 * 256 + frame.getD 13 0 : Nat),
                        size := (frame.length : Nat) }, "")
  update_stats_tables := fun pkt tbl => tbl ++ [pkt]
  get_flow_count := fun tbl => (tbl.length : Nat)
  get_top5 := fun tbl t5 i k => if i < 5 then tbl.getD i (t5 i k) else t5 i k
  intervals := fun k => 1000 * ((k : Int) + 1)

/-- An IPv4 record of the given size. -/
def demo_ip4 (size : Int) : flow_record := ⟨ETHERTYPE_IP, 1, 2, 0, 0, 80, 4000, 6, size⟩

/-- A table of two IPv4 flows for the stand-in engine. -/
def demo_two_ip4 : List flow_record := [demo_ip4 5000, demo_ip4 3000]

/-- A 14-byte Ethernet frame with ethertype 0x0800. -/
def demo_frame : List Nat := [0, 0, 0, 0, 0, 1, 0, 0, 0, 0, 0, 2, 8, 0]

/-- A tick in which `ppoll` fails (returns -1) while one frame is queued, no key
is pressed and the clock reads 0. -/
def demo_err_tick : Tick (List Nat) := ⟨-1, [demo_frame], ERR, ⟨0, 0⟩⟩

/-- A tick in which `q` is pressed, with no traffic, when the clock reads 6 ms. -/
def demo_quit_tick : Tick (List Nat) := ⟨0, [], 113, ⟨0, 6000000⟩⟩

/-- A tick in which the descriptor is readable at once with one frame queued
and no key is pressed, read at `now`. -/
def busy_tick (now : timespec) : Tick (List Nat) := ⟨1, [demo_frame], ERR, now⟩

/-- Answers of libpcap with which every setup step succeeds on any device. -/
def demo_setup : Setup := ⟨some "eth0", fun _ => true, DLT_EN10MB, 0, 3, ""⟩

/-- Answers of libpcap for a device that is not Ethernet (link type 113). -/
def demo_setup_not_ethernet : Setup := ⟨some "any", fun _ => true, 113, 0, 3, ""⟩

/-- A tick with no traffic and no key, read at `now`. -/
def idle_tick (now : timespec) : Tick (List Nat) := ⟨0, [], ERR, now⟩

/-! ## Theorems about `print_tp_hdrs` -/

/-- C10: the divisor `print_tp_hdrs` returns depends only on `tp1`: it is 10^9
when `tp1 > 10^9`, else 10^6 when `tp1 > 10^6`, else 10^3 when `tp1 > 10^3`, else 1
(strict thresholds, so 1000 gives 1); it is one of 1, 10^3, 10^6, 10^9 and never
zero; and for a non-negative 32-bit `tp1` (signed or unsigned: `0 <= tp1 < 2^32`)
the scaled value `tp1 / div` lies in 0..1000 and is at least 1 whenever `tp1 >= 1`. -/
theorem print_tp_hdrs_divisor {Pkt : Type} (tp1 interval1 tp2 interval2 : Int) :
    (∀ i1 t2 i2 : Int, (@print_tp_hdrs Pkt tp1 i1 t2 i2).1 =
        (@print_tp_hdrs Pkt tp1 interval1 tp2 interval2).1) ∧
    (@print_tp_hdrs Pkt tp1 interval1 tp2 interval2).1 =
        (if tp1 > 1000000000 then 1000000000
         else if tp1 > 1000000 then 1000000
         else if tp1 > 1000 then 1000 else 1) ∧
    (@print_tp_hdrs Pkt 1000 interval1 tp2 interval2).1 = 1 ∧
    ((@print_tp_hdrs Pkt tp1 interval1 tp2 interval2).1 = 1 ∨
     (@print_tp_hdrs Pkt tp1 interval1 tp2 interval2).1 = 1000 ∨
     (@print_tp_hdrs Pkt tp1 interval1 tp2 interval2).1 = 1000000 ∨
     (@print_tp_hdrs Pkt tp1 interval1 tp2 interval2).1 = 1000000000) ∧
    (@print_tp_hdrs Pkt tp1 interval1 tp2 interval2).1 ≠ 0 ∧
    (0 ≤ tp1 → tp1 < 2 ^ 32 →
      0 ≤ Int.tdiv tp1 (@print_tp_hdrs Pkt tp1 interval1 tp2 interval2).1 ∧
      Int.tdiv tp1 (@print_tp_hdrs Pkt tp1 interval1 tp2 interval2).1 ≤ 1000 ∧
      (1 ≤ tp1 → 1 ≤ Int.tdiv tp1 (@print_tp_hdrs Pkt tp1 interval1 tp2 interval2).1)) := by
  have hd : ∀ i1 t2 i2 : Int, (@print_tp_hdrs Pkt tp1 i1 t2 i2).1 =
      (if tp1 > 1000000000 then 1000000000
       else if tp1 > 1000000 then 1000000
       else if tp1 > 1000 then 1000 else 1) := by
    intro i1 t2 i2
    simp only [print_tp_hdrs]
    split_ifs <;> rfl
  refine ⟨fun i1 t2 i2 => by rw [hd, hd], hd _ _ _, by rw [print_tp_hdrs]; rfl, ?_, ?_, ?_⟩
  · rw [hd]; split_ifs <;> simp
  · rw [hd]; split_ifs <;> simp
  · intro h0 h31
    rw [hd]
    split_ifs with h1 h2 h3
    · rw [Int.tdiv_eq_ediv h0 (by decide)]; omega
    · rw [Int.tdiv_eq_ediv h0 (by decide)]; omega
    · rw [Int.tdiv_eq_ediv h0 (by decide)]; omega
    · rw [Int.tdiv_one]; omega

/-- Witness for C10 at `tp1 = 2500000`: the divisor is 10^6 and the scaled value 2. -/
theorem print_tp_hdrs_divisor_witness :
    (0 : Int) ≤ 2500000 ∧ (2500000 : Int) < 2 ^ 32 ∧
    0 ≤ Int.tdiv 2500000 (@print_tp_hdrs Unit 2500000 7 9 3).1 ∧
    Int.tdiv 2500000 (@print_tp_hdrs Unit 2500000 7 9 3).1 ≤ 1000 :=
  ⟨by decide, by decide,
   ((print_tp_hdrs_divisor 2500000 7 9 3).2.2.2.2.2 (by decide) (by decide)).1,
   ((print_tp_hdrs_divisor 2500000 7 9 3).2.2.2.2.2 (by decide) (by decide)).2.1⟩

/-! ## Theorems about `handle_packet` -/

/-- C1: `handle_packet` calls `update_stats_tables` (exactly once) if and only if
`decode_ethernet` returns 0; when decoding fails the flow table and the flow
count are unchanged, the decoder's error string goes to line `ERR_LINE_OFFSET`,
and the next frames are handled as if the failing frame had not been there. -/
theorem handle_packet_decode_gate {Table Pkt Frame : Type} (E : Engine Table Pkt Frame)
    (frame : Frame) (tbl : Table) :
    ((handle_packet E frame tbl).2.countP Event.is_update = 1 ↔
        0 = (E.decode_ethernet frame E.zp).1) ∧
    ((handle_packet E frame tbl).2.countP Event.is_update ≤ 1) ∧
    (0 = (E.decode_ethernet frame E.zp).1 →
      handle_packet E frame tbl =
        (E.update_stats_tables (E.decode_ethernet frame E.zp).2.1 tbl,
         [Event.update_stats_tables (E.decode_ethernet frame E.zp).2.1])) ∧
    (0 ≠ (E.decode_ethernet frame E.zp).1 →
      (handle_packet E frame tbl).1 = tbl ∧
      E.get_flow_count (handle_packet E frame tbl).1 = E.get_flow_count tbl ∧
      (handle_packet E frame tbl).2 =
        [Event.mvprintw ERR_LINE_OFFSET 0 "%-80s"
          [Arg.str (E.decode_ethernet frame E.zp).2.2]] ∧
      (handle_packet E frame tbl).2.countP Event.is_update = 0 ∧
      ∀ rest : List Frame,
        handle_packets E (frame :: rest) tbl =
          ((handle_packets E rest tbl).1,
           Event.mvprintw ERR_LINE_OFFSET 0 "%-80s"
             [Arg.str (E.decode_ethernet frame E.zp).2.2] ::
             (handle_packets E rest tbl).2)) := by
  by_cases h : 0 = (E.decode_ethernet frame E.zp).1
  · have hp : handle_packet E frame tbl =
        (E.update_stats_tables (E.decode_ethernet frame E.zp).2.1 tbl,
         [Event.update_stats_tables (E.decode_ethernet frame E.zp).2.1]) := by
      simp [handle_packet, h]
    refine ⟨?_, ?_, fun _ => hp, fun h2 => absurd h h2⟩
    · simp [hp, Event.is_update, h]
    · simp [hp, Event.is_update]
  · have hp : handle_packet E frame tbl =
        (tbl, [Event.mvprintw ERR_LINE_OFFSET 0 "%-80s"
          [Arg.str (E.decode_ethernet frame E.zp).2.2]]) := by
      simp [handle_packet, h]
    refine ⟨?_, ?_, fun h2 => absurd h2 h, fun _ => ⟨?_, ?_, ?_, ?_, ?_⟩⟩
    · simp [hp, Event.is_update, h]
    · simp [hp, Event.is_update]
    · rw [hp]
    · rw [hp]
    · rw [hp]
    · simp [hp, Event.is_update]
    · intro rest
      simp [handle_packets, hp]

/-- Witness for C1: a 3-byte frame fails to decode in the stand-in engine and
leaves a table of one flow untouched. -/
theorem handle_packet_decode_gate_witness :
    0 ≠ (demo_engine.decode_ethernet [1, 2, 3] demo_engine.zp).1 ∧
    (handle_packet demo_engine [1, 2, 3] [demo_ip4 100]).1 = [demo_ip4 100] :=
  ⟨by decide,
   ((handle_packet_decode_gate demo_engine [1, 2, 3] [demo_ip4 100]).2.2.2 (by decide)).1⟩

/-! ## Theorems about `print_top_n` -/

/-- Unfolding of the loop when its condition holds. -/
theorem print_top_n_loop_step {Pkt : Type} (intervals : Nat → Int) (t5 : top_flows)
    (flowcnt : Int) (i : Nat) (row : Int) (h : (i : Int) < flowcnt ∧ i < 5) :
    @print_top_n_loop Pkt intervals t5 flowcnt i row =
      (i, (@print_top_n_body Pkt intervals t5 i row).1) ::
        print_top_n_loop intervals t5 flowcnt (i + 1)
          (@print_top_n_body Pkt intervals t5 i row).2 := by
  rw [print_top_n_loop, if_pos h]

/-- Unfolding of the loop when its condition fails. -/
theorem print_top_n_loop_exit {Pkt : Type} (intervals : Nat → Int) (t5 : top_flows)
    (flowcnt : Int) (i : Nat) (row : Int) (h : ¬ ((i : Int) < flowcnt ∧ i < 5)) :
    @print_top_n_loop Pkt intervals t5 flowcnt i row = [] := by
  rw [print_top_n_loop, if_neg h]

/-- The body on an IPv4 record. -/
theorem print_top_n_body_ip4 {Pkt : Type} (intervals : Nat → Int) (t5 : top_flows)
    (i : Nat) (row : Int) (h4 : (t5 i 7).ethertype = ETHERTYPE_IP) :
    @print_top_n_body Pkt intervals t5 i row =
      ((header_part intervals t5 i).2 ++
        row_block (Arg.ipv4 (t5 i 7).src_ip) (Arg.ipv4 (t5 i 7).dst_ip) (t5 i 7) (t5 i 3)
          (@header_part Pkt intervals t5 i).1 row, row + 3) := by
  simp only [print_top_n_body, header_part, row_block, if_pos h4]

/-- The body on an IPv6 record. -/
theorem print_top_n_body_ip6 {Pkt : Type} (intervals : Nat → Int) (t5 : top_flows)
    (i : Nat) (row : Int) (h6 : (t5 i 7).ethertype = ETHERTYPE_IPV6) :
    @print_top_n_body Pkt intervals t5 i row =
      ((header_part intervals t5 i).2 ++
        row_block (Arg.ipv6 (t5 i 7).src_ip6) (Arg.ipv6 (t5 i 7).dst_ip6) (t5 i 7) (t5 i 3)
          (@header_part Pkt intervals t5 i).1 row, row + 3) := by
  have h4 : ¬ (t5 i 7).ethertype = ETHERTYPE_IP := by
    rw [h6]; decide
  simp only [print_top_n_body, header_part, row_block, if_neg h4, if_pos h6]

/-- The body on a record that is neither IPv4 nor IPv6. -/
theorem print_top_n_body_other {Pkt : Type} (intervals : Nat → Int) (t5 : top_flows)
    (i : Nat) (row : Int) (h4 : (t5 i 7).ethertype ≠ ETHERTYPE_IP)
    (h6 : (t5 i 7).ethertype ≠ ETHERTYPE_IPV6) :
    @print_top_n_body Pkt intervals t5 i row =
      ((header_part intervals t5 i).2 ++
        [Event.mvprintw ERR_LINE_OFFSET 0 "%80s" [Arg.str " "],
         Event.mvprintw ERR_LINE_OFFSET 0 "Unknown ethertype: %d"
           [Arg.int (t5 i 7).ethertype]], row) := by
  simp only [print_top_n_body, header_part, if_neg h4, if_neg h6]

/-- C9 (the code at the failing input): with two IPv4 flows the first row is
scaled by the divisor of the header (5000 / 1000 = 5), but in the second
iteration the block-scoped `div` has not been assigned, so both rate cells of the
second row are computed from an unassigned divisor. -/
theorem print_top_n_second_row_divisor_unassigned :
    (@header_part flow_record demo_engine.intervals
        (demo_engine.get_top5 demo_two_ip4 (fun _ _ => zero_record)) 0).1 = some 1000 ∧
    (@header_part flow_record demo_engine.intervals
        (demo_engine.get_top5 demo_two_ip4 (fun _ _ => zero_record)) 1).1 = none ∧
    Event.mvprintw (TOP_N_LINE_OFFSET + 3 + 1) 47 "%10d %10d" [Arg.int 5, Arg.int 5] ∈
      print_top_n demo_engine demo_two_ip4 5 ∧
    Event.mvprintw (TOP_N_LINE_OFFSET + 6 + 1) 47 "%10d %10d"
        [Arg.indeterminate, Arg.indeterminate] ∈
      print_top_n demo_engine demo_two_ip4 5 := by
  have hcnt : demo_engine.get_flow_count demo_two_ip4 = 2 := by decide
  have e0 : (demo_engine.get_top5 demo_two_ip4 (fun _ _ => zero_record) 0 7).ethertype =
      ETHERTYPE_IP := by decide
  have e1 : (demo_engine.get_top5 demo_two_ip4 (fun _ _ => zero_record) 1 7).ethertype =
      ETHERTYPE_IP := by decide
  have hloop : @print_top_n_loop flow_record demo_engine.intervals
      (demo_engine.get_top5 demo_two_ip4 (fun _ _ => zero_record)) 2 0 3 =
      [(0, (@print_top_n_body flow_record demo_engine.intervals
              (demo_engine.get_top5 demo_two_ip4 (fun _ _ => zero_record)) 0 3).1),
       (1, (@print_top_n_body flow_record demo_engine.intervals
              (demo_engine.get_top5 demo_two_ip4 (fun _ _ => zero_record)) 1 (3 + 3)).1)] := by
    rw [print_top_n_loop_step _ _ _ _ _ (by decide), print_top_n_body_ip4 _ _ _ _ e0,
      print_top_n_loop_step _ _ _ _ _ (by decide), print_top_n_body_ip4 _ _ _ _ e1,
      print_top_n_loop_exit _ _ _ _ _ (by decide)]
  refine ⟨by decide, by decide, ?_, ?_⟩
  · simp only [print_top_n, hcnt, hloop, print_top_n_body_ip4 _ _ _ _ e0]
    simp only [List.map, List.flatten, List.mem_append]
    refine Or.inr (Or.inl (Or.inr ?_))
    decide
  · simp only [print_top_n, hcnt, hloop, print_top_n_body_ip4 _ _ _ _ e1]
    simp only [List.map, List.flatten, List.mem_append]
    refine Or.inr (Or.inr (Or.inl (Or.inr ?_)))
    decide

/-! ## Helper facts about traces -/

/-- Every call made by `print_top_n` is a drawing call. -/
theorem print_top_n_is_draw {Table Pkt Frame : Type} (E : Engine Table Pkt Frame)
    (tbl : Table) (stop : Int) : ∀ e ∈ print_top_n E tbl stop, e.is_draw = true := by
  have hbody : ∀ (t5 : top_flows) (i : Nat) (row : Int),
      ∀ e ∈ (@print_top_n_body Pkt E.intervals t5 i row).1, e.is_draw = true := by
    intro t5 i row e he
    have hh : ∀ e ∈ (@header_part Pkt E.intervals t5 i).2, e.is_draw = true := by
      intro e he
      unfold header_part at he
      split_ifs at he
      · simp only [print_tp_hdrs, List.mem_cons, List.mem_singleton, List.not_mem_nil,
          or_false] at he
        rcases he with rfl | rfl | rfl | rfl <;> rfl
      · simp at he
    by_cases h4 : (t5 i 7).ethertype = ETHERTYPE_IP
    · rw [print_top_n_body_ip4 _ _ _ _ h4, List.mem_append] at he
      rcases he with he | he
      · exact hh e he
      · simp only [row_block, List.mem_cons, List.mem_singleton, List.not_mem_nil,
          or_false] at he
        rcases he with rfl | rfl | rfl | rfl | rfl | rfl | rfl | rfl | rfl <;> rfl
    · by_cases h6 : (t5 i 7).ethertype = ETHERTYPE_IPV6
      · rw [print_top_n_body_ip6 _ _ _ _ h6, List.mem_append] at he
        rcases he with he | he
        · exact hh e he
        · simp only [row_block, List.mem_cons, List.mem_singleton, List.not_mem_nil,
            or_false] at he
          rcases he with rfl | rfl | rfl | rfl | rfl | rfl | rfl | rfl | rfl <;> rfl
      · rw [print_top_n_body_other _ _ _ _ h4 h6, List.mem_append] at he
        rcases he with he | he
        · exact hh e he
        · simp only [List.mem_cons, List.mem_singleton, List.not_mem_nil, or_false] at he
          rcases he with rfl | rfl <;> rfl
  have hloop : ∀ (t5 : top_flows) (flowcnt : Int) (k : Nat) (i : Nat) (row : Int), 5 - i = k →
      ∀ p ∈ @print_top_n_loop Pkt E.intervals t5 flowcnt i row, ∀ e ∈ p.2, e.is_draw = true := by
    intro t5 flowcnt k
    induction k with
    | zero =>
      intro i row hk p hp
      rw [print_top_n_loop_exit _ _ _ _ _ (by omega)] at hp
      simp at hp
    | succ k ih =>
      intro i row hk p hp
      by_cases h : (i : Int) < flowcnt ∧ i < 5
      · rw [print_top_n_loop_step _ _ _ _ _ h, List.mem_cons] at hp
        rcases hp with rfl | hp
        · exact hbody t5 i row
        · exact ih (i + 1) _ (by omega) p hp
      · rw [print_top_n_loop_exit _ _ _ _ _ h] at hp
        simp at hp
  intro e he
  simp only [print_top_n, List.mem_append, List.mem_cons, List.mem_singleton,
    List.not_mem_nil, or_false, List.mem_flatten, List.mem_map] at he
  rcases he with (rfl | he) | he
  · rfl
  · simp only [clear_table, List.mem_map] at he
    obtain ⟨k, _, rfl⟩ := he
    rfl
  · obtain ⟨l, ⟨p, hp, rfl⟩, hel⟩ := he
    exact hloop _ _ 5 0 3 rfl p hp e hel

/-- The two outcomes of `handle_packet`. -/
theorem handle_packet_cases {Table Pkt Frame : Type} (E : Engine Table Pkt Frame)
    (f : Frame) (tbl : Table) :
    (∃ pkt, handle_packet E f tbl =
      (E.update_stats_tables pkt tbl, [Event.update_stats_tables pkt])) ∨
    (∃ msg, handle_packet E f tbl =
      (tbl, [Event.mvprintw ERR_LINE_OFFSET 0 "%-80s" [Arg.str msg]])) := by
  by_cases h : 0 = (E.decode_ethernet f E.zp).1
  · exact Or.inl ⟨(E.decode_ethernet f E.zp).2.1, by simp only [handle_packet, if_pos h]⟩
  · exact Or.inr ⟨(E.decode_ethernet f E.zp).2.2, by simp only [handle_packet, if_neg h]⟩

/-- Every call made while handling frames is a drawing call or an update of the table. -/
theorem handle_packets_events {Table Pkt Frame : Type} (E : Engine Table Pkt Frame)
    (fs : List Frame) :
    ∀ (tbl : Table), ∀ e ∈ (handle_packets E fs tbl).2,
      e.is_draw = true ∨ e.is_update = true := by
  induction fs with
  | nil => intro tbl e he; simp [handle_packets] at he
  | cons f fs ih =>
    intro tbl e he
    simp only [handle_packets, List.mem_append] at he
    rcases he with he | he
    · rcases handle_packet_cases E f tbl with ⟨pkt, hp⟩ | ⟨msg, hp⟩
      · rw [hp, List.mem_singleton] at he
        subst he; exact Or.inr rfl
      · rw [hp, List.mem_singleton] at he
        subst he; exact Or.inl rfl
    · exact ih _ e he

/-- The number of table updates while handling frames is at most the number of frames. -/
theorem handle_packets_updates_le {Table Pkt Frame : Type} (E : Engine Table Pkt Frame)
    (fs : List Frame) :
    ∀ (tbl : Table), (handle_packets E fs tbl).2.countP Event.is_update ≤ fs.length := by
  induction fs with
  | nil => intro tbl; simp [handle_packets]
  | cons f fs ih =>
    intro tbl
    simp only [handle_packets, List.countP_append, List.length_cons]
    have h1 : (handle_packet E f tbl).2.countP Event.is_update ≤ 1 := by
      rcases handle_packet_cases E f tbl with ⟨pkt, hp⟩ | ⟨msg, hp⟩ <;>
        simp [hp, Event.is_update]
    have h2 := ih (handle_packet E f tbl).1
    omega

/-! ## Helper facts about one iteration of `grab_packets` -/

/-- The iteration in which `q` is read. -/
theorem grab_packets_body_quit {Table Pkt Frame : Type} (E : Engine Table Pkt Frame)
    (t : Tick Frame) (pt : timespec) (tbl : Table) (hq : t.ch = 113) :
    grab_packets_body E t pt tbl =
      (true, pt, (drain E t tbl).1,
       Event.ppoll t.ppoll :: ((drain E t tbl).2 ++ [Event.getch t.ch]) ++ [Event.endwin]) := by
  have hc : t.ch ≠ ERR ∧ t.ch = 113 := ⟨by rw [hq]; decide, hq⟩
  simp only [grab_packets_body, drain, if_pos hc]

/-- An iteration without `q` in which the deadline has passed. -/
theorem grab_packets_body_render {Table Pkt Frame : Type} (E : Engine Table Pkt Frame)
    (t : Tick Frame) (pt : timespec) (tbl : Table) (hq : t.ch ≠ 113)
    (hd : 0 > ts_cmp pt t.now) :
    grab_packets_body E t pt tbl =
      (false, ts_add pt poll_timeout, (drain E t tbl).1,
       Event.ppoll t.ppoll :: ((drain E t tbl).2 ++ [Event.getch t.ch]) ++
         [Event.clock_gettime t.now, Event.call_print_top_n 5] ++
         print_top_n E (drain E t tbl).1 5 ++ [Event.refresh]) := by
  have hc : ¬ (t.ch ≠ ERR ∧ t.ch = 113) := fun h => hq h.2
  simp only [grab_packets_body, drain, if_neg hc, if_pos hd]

/-- An iteration without `q` in which the deadline has not passed. -/
theorem grab_packets_body_wait {Table Pkt Frame : Type} (E : Engine Table Pkt Frame)
    (t : Tick Frame) (pt : timespec) (tbl : Table) (hq : t.ch ≠ 113)
    (hd : ¬ 0 > ts_cmp pt t.now) :
    grab_packets_body E t pt tbl =
      (false, pt, (drain E t tbl).1,
       Event.ppoll t.ppoll :: ((drain E t tbl).2 ++ [Event.getch t.ch]) ++
         [Event.clock_gettime t.now]) := by
  have hc : ¬ (t.ch ≠ ERR ∧ t.ch = 113) := fun h => hq h.2
  simp only [grab_packets_body, drain, if_neg hc, if_neg hd]

/-- The iteration returns exactly when the key read is `q`. -/
theorem grab_packets_body_quit_iff {Table Pkt Frame : Type} (E : Engine Table Pkt Frame)
    (t : Tick Frame) (pt : timespec) (tbl : Table) :
    (grab_packets_body E t pt tbl).1 = true ↔ t.ch = 113 := by
  by_cases hq : t.ch = 113
  · simp [grab_packets_body_quit E t pt tbl hq, hq]
  · by_cases hd : 0 > ts_cmp pt t.now
    · simp [grab_packets_body_render E t pt tbl hq hd, hq]
    · simp [grab_packets_body_wait E t pt tbl hq hd, hq]

/-- Shape of the calls of one iteration: the wait, the drain, the key read, then
calls that neither drain nor update the table. -/
theorem grab_packets_body_shape {Table Pkt Frame : Type} (E : Engine Table Pkt Frame)
    (t : Tick Frame) (pt : timespec) (tbl : Table) :
    ∃ tail : List (Event Pkt),
      (grab_packets_body E t pt tbl).2.2.2 =
        Event.ppoll t.ppoll :: ((drain E t tbl).2 ++ Event.getch t.ch :: tail) ∧
      (grab_packets_body E t pt tbl).2.2.1 = (drain E t tbl).1 ∧
      ∀ e ∈ tail, e.is_dispatch = false ∧ e.is_update = false := by
  by_cases hq : t.ch = 113
  · refine ⟨[Event.endwin], ?_, ?_, ?_⟩
    · simp [grab_packets_body_quit E t pt tbl hq]
    · simp [grab_packets_body_quit E t pt tbl hq]
    · intro e he
      simp only [List.mem_singleton] at he
      subst he; exact ⟨rfl, rfl⟩
  · by_cases hd : 0 > ts_cmp pt t.now
    · refine ⟨[Event.clock_gettime t.now, Event.call_print_top_n 5] ++
          print_top_n E (drain E t tbl).1 5 ++ [Event.refresh], ?_, ?_, ?_⟩
      · simp [grab_packets_body_render E t pt tbl hq hd]
      · simp [grab_packets_body_render E t pt tbl hq hd]
      · intro e he
        simp only [List.mem_append, List.mem_cons, List.mem_singleton, List.not_mem_nil,
          or_false] at he
        rcases he with ((rfl | rfl) | he) | rfl
        · exact ⟨rfl, rfl⟩
        · exact ⟨rfl, rfl⟩
        · have := print_top_n_is_draw E _ _ e he
          cases e <;> simp_all [Event.is_draw, Event.is_dispatch, Event.is_update]
        · exact ⟨rfl, rfl⟩
    · refine ⟨[Event.clock_gettime t.now], ?_, ?_, ?_⟩
      · simp [grab_packets_body_wait E t pt tbl hq hd]
      · simp [grab_packets_body_wait E t pt tbl hq hd]
      · intro e he
        simp only [List.mem_singleton] at he
        subst he; exact ⟨rfl, rfl⟩

/-- The drain step: one `pcap_dispatch` exactly when `ppoll` returned nonzero,
with count 100000, and at most 100000 table updates. -/
theorem drain_facts {Table Pkt Frame : Type} (E : Engine Table Pkt Frame)
    (t : Tick Frame) (tbl : Table) :
    (drain E t tbl).2.countP Event.is_dispatch = (if t.ppoll ≠ 0 then 1 else 0) ∧
    (∀ c, Event.pcap_dispatch c ∈ (drain E t tbl).2 → c = 100000 ∧ t.ppoll ≠ 0) ∧
    (t.ppoll ≠ 0 → Event.pcap_dispatch 100000 ∈ (drain E t tbl).2) ∧
    (t.ppoll = 0 → drain E t tbl = (tbl, [])) ∧
    (drain E t tbl).2.countP Event.is_update ≤ 100000 := by
  have hnd : ∀ e ∈ (@handle_packets Table Pkt Frame E (t.queued.take (100000 : Int).toNat) tbl).2,
      e.is_dispatch = false := by
    intro e he
    have := handle_packets_events E _ tbl e he
    cases e <;> simp_all [Event.is_draw, Event.is_dispatch, Event.is_update]
  have hup := handle_packets_updates_le E (t.queued.take (100000 : Int).toNat) tbl
  have hlen : (t.queued.take (100000 : Int).toNat).length ≤ 100000 := by
    rw [List.length_take]
    exact le_trans (Nat.min_le_left _ _) (by decide)
  by_cases h : t.ppoll ≠ 0
  · have hd : drain E t tbl = pcap_dispatch E 100000 t.queued tbl := by
      simp only [drain, if_pos h]
    rw [hd]
    refine ⟨?_, ?_, ?_, fun h0 => absurd h0 h, ?_⟩
    · simp only [pcap_dispatch, List.countP_cons, Event.is_dispatch, if_pos h]
      rw [List.countP_eq_zero.2 (fun e he => by simp [hnd e he])]
      rfl
    · intro c hc
      simp only [pcap_dispatch, List.mem_cons] at hc
      rcases hc with hc | hc
      · injection hc with hc
        exact ⟨hc, h⟩
      · have := hnd _ hc
        simp [Event.is_dispatch] at this
    · simp [pcap_dispatch]
    · simp only [pcap_dispatch, List.countP_cons, Event.is_update]
      simp only [Bool.false_eq_true, if_false, Nat.add_zero]
      omega
  · have h0 : t.ppoll = 0 := not_not.1 h
    have hd : drain E t tbl = (tbl, []) := by
      simp only [drain, if_neg h]
    rw [hd]
    refine ⟨by simp [h0], ?_, fun h1 => absurd h0 h1, fun _ => rfl, by simp⟩
    intro c hc
    simp at hc

/-! ## Helper facts about the loop of `grab_packets` -/

/-- Unfolding of the loop at an iteration that returns. -/
theorem grab_packets_loop_quit {Table Pkt Frame : Type} (E : Engine Table Pkt Frame)
    (t : Tick Frame) (rest : List (Tick Frame)) (pt : timespec) (tbl : Table)
    (hq : t.ch = 113) :
    grab_packets_loop E (t :: rest) pt tbl =
      (true, (grab_packets_body E t pt tbl).2.2.1, (grab_packets_body E t pt tbl).2.2.2) := by
  have h := (grab_packets_body_quit_iff E t pt tbl).2 hq
  simp only [grab_packets_loop, h, if_true]

/-- Unfolding of the loop at an iteration that does not return. -/
theorem grab_packets_loop_continue {Table Pkt Frame : Type} (E : Engine Table Pkt Frame)
    (t : Tick Frame) (rest : List (Tick Frame)) (pt : timespec) (tbl : Table)
    (hq : t.ch ≠ 113) :
    grab_packets_loop E (t :: rest) pt tbl =
      ((grab_packets_loop E rest (grab_packets_body E t pt tbl).2.1
          (grab_packets_body E t pt tbl).2.2.1).1,
       (grab_packets_loop E rest (grab_packets_body E t pt tbl).2.1
          (grab_packets_body E t pt tbl).2.2.1).2.1,
       (grab_packets_body E t pt tbl).2.2.2 ++
         (grab_packets_loop E rest (grab_packets_body E t pt tbl).2.1
            (grab_packets_body E t pt tbl).2.2.1).2.2) := by
  have h : (grab_packets_body E t pt tbl).1 = false := by
    cases hb : (grab_packets_body E t pt tbl).1
    · rfl
    · exact absurd ((grab_packets_body_quit_iff E t pt tbl).1 hb) hq
  simp only [grab_packets_loop, h, Bool.false_eq_true, if_false]

/-- The loop returns exactly when some tick of the script carries the key `q`. -/
theorem grab_packets_loop_returns_iff {Table Pkt Frame : Type} (E : Engine Table Pkt Frame)
    (ticks : List (Tick Frame)) :
    ∀ (pt : timespec) (tbl : Table),
      (grab_packets_loop E ticks pt tbl).1 = true ↔ ∃ t ∈ ticks, t.ch = 113 := by
  induction ticks with
  | nil => intro pt tbl; simp [grab_packets_loop]
  | cons t rest ih =>
    intro pt tbl
    by_cases hq : t.ch = 113
    · rw [grab_packets_loop_quit E t rest pt tbl hq]
      simp [hq]
    · rw [grab_packets_loop_continue E t rest pt tbl hq]
      simp only [ih, List.mem_cons, exists_eq_or_imp, hq, false_or]

/-- The loop on a script whose first `q` is at tick `t`: the calls of the ticks
before, then the wait, the drain, the key read and `endwin`, and nothing else. -/
theorem grab_packets_loop_at_quit {Table Pkt Frame : Type} (E : Engine Table Pkt Frame)
    (t : Tick Frame) (post : List (Tick Frame)) (hq : t.ch = 113) (pre : List (Tick Frame)) :
    ∀ (pt : timespec) (tbl : Table), (∀ u ∈ pre, u.ch ≠ 113) →
      grab_packets_loop E (pre ++ t :: post) pt tbl =
        (true, (drain E t (grab_packets_loop E pre pt tbl).2.1).1,
         (grab_packets_loop E pre pt tbl).2.2 ++
           Event.ppoll t.ppoll ::
             ((drain E t (grab_packets_loop E pre pt tbl).2.1).2 ++
               [Event.getch 113, Event.endwin])) := by
  induction pre with
  | nil =>
    intro pt tbl _
    rw [List.nil_append, grab_packets_loop_quit E t post pt tbl hq,
      grab_packets_body_quit E t pt tbl hq]
    simp [grab_packets_loop, hq]
  | cons u pre ih =>
    intro pt tbl hpre
    have hu : u.ch ≠ 113 := hpre u (List.mem_cons_self _ _)
    have hrest : ∀ v ∈ pre, v.ch ≠ 113 := fun v hv => hpre v (List.mem_cons_of_mem _ hv)
    rw [List.cons_append, grab_packets_loop_continue E u _ pt tbl hu,
      grab_packets_loop_continue E u pre pt tbl hu, ih _ _ hrest]
    simp

/-- The number of `pcap_dispatch` calls of the loop is the number of consumed
ticks whose `ppoll` returned nonzero. -/
theorem grab_packets_loop_dispatch_count {Table Pkt Frame : Type}
    (E : Engine Table Pkt Frame) (ticks : List (Tick Frame)) :
    ∀ (pt : timespec) (tbl : Table),
      (grab_packets_loop E ticks pt tbl).2.2.countP Event.is_dispatch =
        (consumed ticks).countP (fun u => decide (u.ppoll ≠ 0)) := by
  have hbody : ∀ (t : Tick Frame) (pt : timespec) (tbl : Table),
      (grab_packets_body E t pt tbl).2.2.2.countP Event.is_dispatch =
        (if t.ppoll ≠ 0 then 1 else 0) := by
    intro t pt tbl
    obtain ⟨tail, hev, _, htail⟩ := grab_packets_body_shape E t pt tbl
    rw [hev, List.countP_cons, List.countP_append, List.countP_cons,
      (drain_facts E t tbl).1,
      List.countP_eq_zero.2 (fun e he => by simp [(htail e he).1])]
    simp [Event.is_dispatch]
  induction ticks with
  | nil => intro pt tbl; simp [grab_packets_loop, consumed]
  | cons t rest ih =>
    intro pt tbl
    by_cases hq : t.ch = 113
    · rw [grab_packets_loop_quit E t rest pt tbl hq]
      simp only [consumed, if_pos hq, hbody]
      by_cases h : t.ppoll ≠ 0 <;> simp [h]
    · rw [grab_packets_loop_continue E t rest pt tbl hq]
      simp only [consumed, if_neg hq, List.countP_append, hbody, ih, List.countP_cons]
      by_cases h : t.ppoll ≠ 0 <;> simp [h]
      omega

/-! ## Helper facts about time and render readings -/

/-- On normalised timespecs `ts_cmp` is negative exactly when the first is earlier. -/
theorem ts_cmp_neg_iff (a b : timespec) (ha : a.normal) (hb : b.normal) :
    0 > ts_cmp a b ↔ a.to_ns < b.to_ns := by
  unfold timespec.normal at ha hb
  unfold ts_cmp timespec.to_ns
  split_ifs <;> constructor <;> intro h <;> omega

/-- Adding `poll_timeout` keeps a timespec normalised and moves it by 5 ms. -/
theorem ts_add_poll_timeout (a : timespec) (ha : a.normal) :
    (ts_add a poll_timeout).normal ∧
    (ts_add a poll_timeout).to_ns = a.to_ns + 5000000 := by
  unfold timespec.normal at ha
  simp only [ts_add, poll_timeout, timespec.normal, timespec.to_ns]
  split_ifs <;> constructor <;> simp only <;> omega

/-- Calls that are neither clock readings nor renders do not affect `render_readings`. -/
theorem render_readings_skip {Pkt : Type} (xs : List (Event Pkt)) :
    ∀ (last : Option timespec) (ys : List (Event Pkt)),
      (∀ e ∈ xs, e.is_clock_or_render = false) →
      render_readings last (xs ++ ys) = render_readings last ys := by
  induction xs with
  | nil => intro last ys _; rfl
  | cons x xs ih =>
    intro last ys h
    have hx := h x (List.mem_cons_self _ _)
    have hxs : ∀ e ∈ xs, e.is_clock_or_render = false :=
      fun e he => h e (List.mem_cons_of_mem _ he)
    rw [List.cons_append]
    cases x <;> first
      | (simp [Event.is_clock_or_render] at hx; done)
      | (cases last <;> simp only [render_readings] <;> exact ih _ _ hxs)

/-- A clock reading becomes the latest reading. -/
theorem render_readings_clock {Pkt : Type} (last : Option timespec) (t : timespec)
    (es : List (Event Pkt)) :
    render_readings last (Event.clock_gettime t :: es) = render_readings (some t) es := by
  cases last <;> rfl

/-- A render call records the latest reading. -/
theorem render_readings_call {Pkt : Type} (t : timespec) (stop : Int)
    (es : List (Event Pkt)) :
    render_readings (some t) (Event.call_print_top_n stop :: es) =
      t :: render_readings (some t) es := rfl

/-- A screen refresh is skipped. -/
theorem render_readings_refresh {Pkt : Type} (last : Option timespec)
    (es : List (Event Pkt)) :
    render_readings last (Event.refresh :: es) = render_readings last es := by
  cases last <;> rfl

/-- The wait, the drain and the key read contain no clock reading and no render. -/
theorem drain_quiet {Table Pkt Frame : Type} (E : Engine Table Pkt Frame)
    (t : Tick Frame) (tbl : Table) :
    ∀ e ∈ Event.ppoll t.ppoll :: ((drain E t tbl).2 ++ [Event.getch t.ch]),
      e.is_clock_or_render = false := by
  intro e he
  simp only [List.mem_cons, List.mem_append, List.mem_singleton, List.not_mem_nil,
    or_false] at he
  rcases he with rfl | he | rfl
  · rfl
  · unfold drain at he
    split_ifs at he
    · simp only [pcap_dispatch, List.mem_cons] at he
      rcases he with rfl | he
      · rfl
      · have := handle_packets_events E _ tbl e he
        cases e <;> simp_all [Event.is_draw, Event.is_update, Event.is_clock_or_render]
    · simp at he
  · rfl

/-- The calls of `print_top_n` contain no clock reading and no render call. -/
theorem print_top_n_quiet {Table Pkt Frame : Type} (E : Engine Table Pkt Frame)
    (tbl : Table) (stop : Int) :
    ∀ e ∈ print_top_n E tbl stop, e.is_clock_or_render = false := by
  intro e he
  have := print_top_n_is_draw E tbl stop e he
  cases e <;> simp_all [Event.is_draw, Event.is_clock_or_render]

/-- Render readings of the loop at an iteration that renders. -/
theorem render_readings_loop_render {Table Pkt Frame : Type} (E : Engine Table Pkt Frame)
    (t : Tick Frame) (rest : List (Tick Frame)) (pt : timespec) (tbl : Table)
    (last : Option timespec) (hq : t.ch ≠ 113) (hd : 0 > ts_cmp pt t.now) :
    render_readings last (grab_packets_loop E (t :: rest) pt tbl).2.2 =
      t.now :: render_readings (some t.now)
        (grab_packets_loop E rest (ts_add pt poll_timeout) (drain E t tbl).1).2.2 := by
  rw [grab_packets_loop_continue E t rest pt tbl hq, grab_packets_body_render E t pt tbl hq hd]
  simp only [List.append_assoc]
  rw [render_readings_skip _ _ _ (drain_quiet E t tbl)]
  simp only [List.cons_append, List.nil_append]
  rw [render_readings_clock, render_readings_call,
    render_readings_skip _ _ _ (print_top_n_quiet E _ _), render_readings_refresh]

/-- Render readings of the loop at an iteration that does not render. -/
theorem render_readings_loop_wait {Table Pkt Frame : Type} (E : Engine Table Pkt Frame)
    (t : Tick Frame) (rest : List (Tick Frame)) (pt : timespec) (tbl : Table)
    (last : Option timespec) (hq : t.ch ≠ 113) (hd : ¬ 0 > ts_cmp pt t.now) :
    render_readings last (grab_packets_loop E (t :: rest) pt tbl).2.2 =
      render_readings (some t.now) (grab_packets_loop E rest pt (drain E t tbl).1).2.2 := by
  rw [grab_packets_loop_continue E t rest pt tbl hq, grab_packets_body_wait E t pt tbl hq hd]
  simp only [List.append_assoc]
  rw [render_readings_skip _ _ _ (drain_quiet E t tbl)]
  simp only [List.cons_append, List.nil_append]
  rw [render_readings_clock]

/-- Render readings of the loop at the iteration that reads `q`: none. -/
theorem render_readings_loop_quit {Table Pkt Frame : Type} (E : Engine Table Pkt Frame)
    (t : Tick Frame) (rest : List (Tick Frame)) (pt : timespec) (tbl : Table)
    (last : Option timespec) (hq : t.ch = 113) :
    render_readings last (grab_packets_loop E (t :: rest) pt tbl).2.2 = [] := by
  rw [grab_packets_loop_quit E t rest pt tbl hq, grab_packets_body_quit E t pt tbl hq,
    render_readings_skip _ _ _ (drain_quiet E t tbl)]
  cases last <;> rfl

/-- The render readings of the loop: the `k`-th one is later than the deadline
on entry plus `k` intervals. -/
theorem grab_packets_loop_readings {Table Pkt Frame : Type} (E : Engine Table Pkt Frame)
    (ticks : List (Tick Frame)) :
    ∀ (pt : timespec) (tbl : Table) (last : Option timespec), pt.normal →
      (∀ t ∈ ticks, t.now.normal) →
      ∀ (k : Nat) (r : timespec),
        (render_readings last (grab_packets_loop E ticks pt tbl).2.2)[k]? = some r →
        pt.to_ns + 5000000 * (k : Int) < r.to_ns := by
  induction ticks with
  | nil =>
    intro pt tbl last _ _ k r hr
    simp [grab_packets_loop, render_readings] at hr
  | cons t rest ih =>
    intro pt tbl last hpt hn k r hr
    have hnow : t.now.normal := hn t (List.mem_cons_self _ _)
    have hrest : ∀ u ∈ rest, u.now.normal := fun u hu => hn u (List.mem_cons_of_mem _ hu)
    by_cases hq : t.ch = 113
    · rw [render_readings_loop_quit E t rest pt tbl last hq] at hr
      simp at hr
    · by_cases hd : 0 > ts_cmp pt t.now
      · rw [render_readings_loop_render E t rest pt tbl last hq hd] at hr
        have hlt := (ts_cmp_neg_iff pt t.now hpt hnow).1 hd
        obtain ⟨hnorm, hns⟩ := ts_add_poll_timeout pt hpt
        cases k with
        | zero =>
          simp only [List.getElem?_cons_zero, Option.some.injEq] at hr
          subst hr
          simpa using hlt
        | succ k =>
          simp only [List.getElem?_cons_succ] at hr
          have := ih _ _ _ hnorm hrest k r hr
          rw [hns] at this
          push_cast
          omega
      · rw [render_readings_loop_wait E t rest pt tbl last hq hd] at hr
        exact ih _ _ _ hpt hrest k r hr

/-! ## Theorems about `grab_packets` -/

/-- C4 as stated fails: `q` is read in the first iteration at a moment when a render
is due (the clock would read 6 ms, the deadline is 5 ms), yet `grab_packets`
returns right after `endwin`: the clock is not read and `print_top_n` is not
called in that iteration.  With any other answer of `getch` the same iteration
reads the clock and renders. -/
theorem grab_packets_quit_skips_render :
    0 > ts_cmp (ts_add ⟨0, 0⟩ poll_timeout) demo_quit_tick.now ∧
    grab_packets demo_engine ⟨0, 0⟩ [demo_quit_tick] [] =
      (true, [], [Event.clock_gettime ⟨0, 0⟩, Event.ppoll 0, Event.getch 113, Event.endwin]) ∧
    Event.clock_gettime demo_quit_tick.now ∉
      (grab_packets demo_engine ⟨0, 0⟩ [demo_quit_tick] []).2.2 ∧
    Event.call_print_top_n 5 ∉ (grab_packets demo_engine ⟨0, 0⟩ [demo_quit_tick] []).2.2 ∧
    Event.call_print_top_n 5 ∈ (grab_packets demo_engine ⟨0, 0⟩ [idle_tick ⟨0, 6000000⟩] []).2.2 := by
  have h : grab_packets demo_engine ⟨0, 0⟩ [demo_quit_tick] [] =
      (true, [], [Event.clock_gettime ⟨0, 0⟩, Event.ppoll 0, Event.getch 113, Event.endwin]) := by
    decide
  refine ⟨by decide, h, ?_, ?_, ?_⟩
  · rw [h]; decide
  · rw [h]; decide
  · have hq : (idle_tick ⟨0, 6000000⟩).ch ≠ 113 := by decide
    have hd : 0 > ts_cmp (ts_add ⟨0, 0⟩ poll_timeout) (idle_tick ⟨0, 6000000⟩).now := by decide
    simp only [grab_packets, grab_packets_loop_continue demo_engine _ _ _ _ hq,
      grab_packets_body_render demo_engine _ _ _ hq hd]
    simp

/-- C4, amended: `grab_packets` returns exactly when some tick carries the key `q`
(no other key and no absence of input ends the loop), and it returns from inside
the iteration that reads `q`: that iteration has made the wait, the drain (if
`ppoll` returned nonzero) and the key read, then `endwin`, and nothing after it;
the clock is not read and nothing is rendered in it. -/
theorem grab_packets_returns_at_quit_key {Table Pkt Frame : Type}
    (E : Engine Table Pkt Frame) (t0 : timespec) (tbl : Table) :
    (∀ ticks : List (Tick Frame),
      (grab_packets E t0 ticks tbl).1 = true ↔ ∃ t ∈ ticks, t.ch = 113) ∧
    (∀ (pre : List (Tick Frame)) (t : Tick Frame) (post : List (Tick Frame)),
      (∀ u ∈ pre, u.ch ≠ 113) → t.ch = 113 →
      grab_packets E t0 (pre ++ t :: post) tbl =
        (true, (drain E t (grab_packets E t0 pre tbl).2.1).1,
         (grab_packets E t0 pre tbl).2.2 ++
           Event.ppoll t.ppoll ::
             ((drain E t (grab_packets E t0 pre tbl).2.1).2 ++
               [Event.getch 113, Event.endwin]))) := by
  refine ⟨fun ticks => ?_, fun pre t post hpre hq => ?_⟩
  · simp only [grab_packets]
    exact grab_packets_loop_returns_iff E ticks _ _
  · simp only [grab_packets, grab_packets_loop_at_quit E t post hq pre _ _ hpre,
      List.cons_append]

/-- Witness for the amended C4: after one idle tick, `q` ends the loop. -/
theorem grab_packets_returns_at_quit_key_witness :
    (∀ u ∈ [idle_tick ⟨0, 1000⟩], u.ch ≠ 113) ∧ demo_quit_tick.ch = 113 ∧
    (grab_packets demo_engine ⟨0, 0⟩ ([idle_tick ⟨0, 1000⟩] ++ demo_quit_tick :: []) []).1 = true :=
  ⟨by decide, by decide,
   congrArg Prod.fst
     ((grab_packets_returns_at_quit_key demo_engine ⟨0, 0⟩ []).2 [idle_tick ⟨0, 1000⟩]
       demo_quit_tick [] (by decide) (by decide))⟩

/-- C5 as stated fails: `ppoll` fails (returns -1) and the iteration still calls
`pcap_dispatch`, and the queued frame is drained into the flow table. -/
theorem grab_packets_drains_on_ppoll_error :
    demo_err_tick.ppoll < 0 ∧
    Event.pcap_dispatch 100000 ∈
      (grab_packets_body demo_engine demo_err_tick ⟨0, 5000000⟩ []).2.2.2 ∧
    (grab_packets_body demo_engine demo_err_tick ⟨0, 5000000⟩ []).2.2.1 ≠ [] := by
  decide

/-- C5, amended: in every iteration `pcap_dispatch` is called exactly when `ppoll`
returned a nonzero value, and then once; when `ppoll` returned 0 (timeout) nothing
is drained and the flow table is unchanged; every drain call requests 100000
packets and leads to at most 100000 table updates; over the loop, the number of
drain calls is the number of iterations whose `ppoll` returned nonzero. -/
theorem grab_packets_drains_iff_ppoll_nonzero {Table Pkt Frame : Type}
    (E : Engine Table Pkt Frame) (t : Tick Frame) (pt : timespec) (tbl : Table) :
    ((∃ c, Event.pcap_dispatch c ∈ (grab_packets_body E t pt tbl).2.2.2) ↔ t.ppoll ≠ 0) ∧
    (grab_packets_body E t pt tbl).2.2.2.countP Event.is_dispatch =
      (if t.ppoll ≠ 0 then 1 else 0) ∧
    (∀ c, Event.pcap_dispatch c ∈ (grab_packets_body E t pt tbl).2.2.2 → c = 100000) ∧
    (t.ppoll = 0 →
      (grab_packets_body E t pt tbl).2.2.1 = tbl ∧
      (grab_packets_body E t pt tbl).2.2.2.countP Event.is_update = 0) ∧
    (grab_packets_body E t pt tbl).2.2.2.countP Event.is_update ≤ 100000 ∧
    (∀ ticks : List (Tick Frame),
      (grab_packets_loop E ticks pt tbl).2.2.countP Event.is_dispatch =
        (consumed ticks).countP (fun u => decide (u.ppoll ≠ 0))) := by
  obtain ⟨tail, hev, htbl, htail⟩ := grab_packets_body_shape E t pt tbl
  obtain ⟨hcnt, hall, hex, hzero, hupd⟩ := drain_facts E t tbl
  have hmem : ∀ c, Event.pcap_dispatch c ∈ (grab_packets_body E t pt tbl).2.2.2 →
      Event.pcap_dispatch c ∈ (drain E t tbl).2 := by
    intro c hc
    rw [hev] at hc
    simp only [List.mem_cons, List.mem_append] at hc
    rcases hc with hc | hc | hc | hc
    · cases hc
    · exact hc
    · cases hc
    · have := (htail _ hc).1
      simp [Event.is_dispatch] at this
  have htailu : tail.countP Event.is_update = 0 :=
    List.countP_eq_zero.2 (fun e he => by simp [(htail e he).2])
  have htaild : tail.countP Event.is_dispatch = 0 :=
    List.countP_eq_zero.2 (fun e he => by simp [(htail e he).1])
  refine ⟨⟨fun ⟨c, hc⟩ => (hall c (hmem c hc)).2, fun h => ⟨100000, ?_⟩⟩, ?_,
    fun c hc => (hall c (hmem c hc)).1, fun h0 => ⟨?_, ?_⟩, ?_,
    fun ticks => grab_packets_loop_dispatch_count E ticks pt tbl⟩
  · rw [hev]
    exact List.mem_cons_of_mem _ (List.mem_append_left _ (hex h))
  · rw [hev, List.countP_cons, List.countP_append, List.countP_cons, hcnt, htaild]
    simp [Event.is_dispatch]
  · rw [htbl, hzero h0]
  · rw [hev, hzero h0, List.countP_cons, List.countP_append, List.countP_cons, htailu]
    simp [Event.is_update]
  · rw [hev, List.countP_cons, List.countP_append, List.countP_cons, htailu]
    simp only [Event.is_update, Bool.false_eq_true, if_false, Nat.add_zero]
    exact hupd

/-- Witness for the amended C5: on a timeout the stand-in table is unchanged. -/
theorem grab_packets_drains_iff_ppoll_nonzero_witness :
    (idle_tick ⟨0, 0⟩).ppoll = 0 ∧
    (grab_packets_body demo_engine (idle_tick ⟨0, 0⟩) ⟨0, 5000000⟩ [demo_ip4 7]).2.2.1 =
      [demo_ip4 7] :=
  ⟨by decide,
   ((grab_packets_drains_iff_ppoll_nonzero demo_engine (idle_tick ⟨0, 0⟩) ⟨0, 5000000⟩
      [demo_ip4 7]).2.2.2.1 (by decide)).1⟩

/-- C6 as stated fails: the loop is entered at time 0 and its first clock reading
is 50 ms (the first drain was slow); it renders then, and renders again in the
next iteration at 50.1 ms (the descriptor was readable at once), because the
deadline has only moved from 5 ms to 10 ms.  The two readings that triggered
consecutive calls of `print_top_n` are 0.1 ms apart, on a clock that never went
backwards. -/
theorem grab_packets_renders_closer_than_interval :
    render_readings none
        (grab_packets demo_engine ⟨0, 0⟩
          [busy_tick ⟨0, 50000000⟩, busy_tick ⟨0, 50100000⟩] []).2.2 =
      [⟨0, 50000000⟩, ⟨0, 50100000⟩] ∧
    (⟨0, 50100000⟩ : timespec).to_ns - (⟨0, 50000000⟩ : timespec).to_ns < 5000000 ∧
    (⟨0, 0⟩ : timespec).to_ns ≤ (⟨0, 50000000⟩ : timespec).to_ns ∧
    (⟨0, 50000000⟩ : timespec).to_ns ≤ (⟨0, 50100000⟩ : timespec).to_ns := by
  refine ⟨?_, by decide, by decide, by decide⟩
  simp only [grab_packets]
  rw [render_readings_clock,
    render_readings_loop_render demo_engine _ _ _ _ _ (by decide) (by decide),
    render_readings_loop_render demo_engine _ _ _ _ _ (by decide) (by decide)]
  rfl

/-- C6, amended: `print_top_n` is called in an iteration only if the clock reading
of that iteration is later than the pending deadline, which is 5 ms after loop
entry at first and moves by exactly 5 ms at each render.  So the reading that
triggered call number `k` (counted from 0) is later than loop entry plus
`(k + 1) * 5 ms`; in particular the first call is later than 5 ms after entry. -/
theorem grab_packets_render_deadlines {Table Pkt Frame : Type}
    (E : Engine Table Pkt Frame) (t0 : timespec) (ticks : List (Tick Frame)) (tbl : Table)
    (h0 : t0.normal) (hn : ∀ t ∈ ticks, t.now.normal) :
    (∀ (k : Nat) (r : timespec),
      (render_readings none (grab_packets E t0 ticks tbl).2.2)[k]? = some r →
      t0.to_ns + 5000000 * ((k : Int) + 1) < r.to_ns) ∧
    (∀ r : timespec,
      (render_readings none (grab_packets E t0 ticks tbl).2.2).head? = some r →
      t0.to_ns + 5000000 < r.to_ns) := by
  have hmain : ∀ (k : Nat) (r : timespec),
      (render_readings none (grab_packets E t0 ticks tbl).2.2)[k]? = some r →
      t0.to_ns + 5000000 * ((k : Int) + 1) < r.to_ns := by
    intro k r hr
    simp only [grab_packets] at hr
    rw [render_readings_clock] at hr
    obtain ⟨hnorm, hns⟩ := ts_add_poll_timeout t0 h0
    have := grab_packets_loop_readings E ticks _ tbl _ hnorm hn k r hr
    rw [hns] at this
    omega
  refine ⟨hmain, fun r hr => ?_⟩
  have := hmain 0 r (by rw [← List.head?_eq_getElem?]; exact hr)
  simpa using this

/-- Witness for the amended C6: an execution entered at 0 with two idle
iterations read at 5.1 ms and 10.2 ms. -/
theorem grab_packets_render_deadlines_witness :
    (⟨0, 0⟩ : timespec).normal ∧
    (∀ t ∈ [idle_tick ⟨0, 5100000⟩, idle_tick ⟨0, 10200000⟩], t.now.normal) ∧
    (∀ (k : Nat) (r : timespec),
      (render_readings none
        (grab_packets demo_engine ⟨0, 0⟩
          [idle_tick ⟨0, 5100000⟩, idle_tick ⟨0, 10200000⟩] []).2.2)[k]? = some r →
      (⟨0, 0⟩ : timespec).to_ns + 5000000 * ((k : Int) + 1) < r.to_ns) :=
  ⟨by decide, by decide,
   (grab_packets_render_deadlines demo_engine ⟨0, 0⟩
      [idle_tick ⟨0, 5100000⟩, idle_tick ⟨0, 10200000⟩] [] (by decide) (by decide)).1⟩

/-! ## Theorems about `main` -/

/-- Every call made by `grab_packets` belongs to the interactive mode. -/
theorem grab_packets_is_interactive {Table Pkt Frame : Type} (E : Engine Table Pkt Frame)
    (t0 : timespec) (ticks : List (Tick Frame)) (tbl : Table) :
    ∀ e ∈ (grab_packets E t0 ticks tbl).2.2, e.is_interactive = true := by
  have hdraw : ∀ e : Event Pkt, e.is_draw = true → e.is_interactive = true := by
    intro e he
    cases e <;> simp_all [Event.is_draw, Event.is_interactive]
  have hupd : ∀ e : Event Pkt, e.is_update = true → e.is_interactive = true := by
    intro e he
    cases e <;> simp_all [Event.is_update, Event.is_interactive]
  have hdrain : ∀ (t : Tick Frame) (tbl : Table), ∀ e ∈ (drain E t tbl).2,
      e.is_interactive = true := by
    intro t tbl e he
    unfold drain at he
    split_ifs at he
    · simp only [pcap_dispatch, List.mem_cons] at he
      rcases he with rfl | he
      · rfl
      · rcases handle_packets_events E _ tbl e he with h | h
        · exact hdraw e h
        · exact hupd e h
    · simp at he
  have hbody : ∀ (t : Tick Frame) (pt : timespec) (tbl : Table),
      ∀ e ∈ (grab_packets_body E t pt tbl).2.2.2, e.is_interactive = true := by
    intro t pt tbl e he
    by_cases hq : t.ch = 113
    · rw [grab_packets_body_quit E t pt tbl hq] at he
      simp only [List.mem_cons, List.mem_append, List.mem_singleton, List.not_mem_nil,
        or_false, List.cons_append] at he
      rcases he with rfl | (he | rfl) | rfl
      · rfl
      · exact hdrain t tbl e he
      · rfl
      · rfl
    · by_cases hd : 0 > ts_cmp pt t.now
      · rw [grab_packets_body_render E t pt tbl hq hd] at he
        simp only [List.mem_cons, List.mem_append, List.mem_singleton, List.not_mem_nil,
          or_false, List.cons_append] at he
        rcases he with rfl | ((((he | rfl) | rfl | rfl) | he) | rfl)
        · rfl
        · exact hdrain t tbl e he
        · rfl
        · rfl
        · rfl
        · exact hdraw e (print_top_n_is_draw E _ _ e he)
        · rfl
      · rw [grab_packets_body_wait E t pt tbl hq hd] at he
        simp only [List.mem_cons, List.mem_append, List.mem_singleton, List.not_mem_nil,
          or_false, List.cons_append] at he
        rcases he with rfl | (he | rfl) | rfl
        · rfl
        · exact hdrain t tbl e he
        · rfl
        · rfl
  have hloop : ∀ (ticks : List (Tick Frame)) (pt : timespec) (tbl : Table),
      ∀ e ∈ (grab_packets_loop E ticks pt tbl).2.2, e.is_interactive = true := by
    intro ticks
    induction ticks with
    | nil => intro pt tbl e he; simp [grab_packets_loop] at he
    | cons t rest ih =>
      intro pt tbl e he
      by_cases hq : t.ch = 113
      · rw [grab_packets_loop_quit E t rest pt tbl hq] at he
        exact hbody t pt tbl e he
      · rw [grab_packets_loop_continue E t rest pt tbl hq] at he
        rcases List.mem_append.1 he with he | he
        · exact hbody t pt tbl e he
        · exact ih _ _ e he
  intro e he
  simp only [grab_packets, List.mem_cons] at he
  rcases he with rfl | he
  · rfl
  · exact hloop ticks _ tbl e he

/-- The device selection of `main`, in terms of `lookup_calls`. -/
theorem main_selection {Table Pkt Frame : Type} (E : Engine Table Pkt Frame) (S : Setup)
    (argc : Int) (argv : List String) (t0 : timespec) (ticks : List (Tick Frame))
    (tbl : Table) :
    main E S argc argv t0 ticks tbl =
      match (if argc = 2 then argv[1]? else S.lookupdev) with
      | none =>
        (some 2, lookup_calls argc ++
          [Event.fprintf_stderr "Couldn't find default device: %s\n" [Arg.str S.errbuf]])
      | some dev =>
        if S.open_live dev = false then
          (some 2, lookup_calls argc ++
            [Event.pcap_open_live dev,
             Event.fprintf_stderr "Couldn't open device %s: %s\n"
               [Arg.str dev, Arg.str S.errbuf]])
        else if S.datalink ≠ DLT_EN10MB then
          (some 2, lookup_calls argc ++
            [Event.pcap_open_live dev, Event.pcap_datalink,
             Event.fprintf_stderr
               "Device %s doesn't provide Ethernet headers - not supported\n" [Arg.str dev]])
        else if S.setnonblock ≠ 0 then
          (some 2, lookup_calls argc ++
            [Event.pcap_open_live dev, Event.pcap_datalink, Event.pcap_setnonblock,
             Event.fprintf_stderr "Non-blocking mode failed: %s\n" [Arg.str S.errbuf]])
        else if -1 = S.selectable_fd then
          (some 2, lookup_calls argc ++
            [Event.pcap_open_live dev, Event.pcap_datalink, Event.pcap_setnonblock,
             Event.pcap_get_selectable_fd,
             Event.fprintf_stderr "pcap handle not selectable.\n" []])
        else if (grab_packets E t0 ticks tbl).1 then
          (some 0, lookup_calls argc ++
            [Event.pcap_open_live dev, Event.pcap_datalink, Event.pcap_setnonblock,
             Event.pcap_get_selectable_fd] ++ init_curses ++
            [Event.mvprintw 0 0 "Device:" [], Event.attron_bold,
             Event.mvprintw 0 10 "%s\n" [Arg.str dev], Event.attroff_bold] ++
            (grab_packets E t0 ticks tbl).2.2 ++ [Event.pcap_close])
        else
          (none, lookup_calls argc ++
            [Event.pcap_open_live dev, Event.pcap_datalink, Event.pcap_setnonblock,
             Event.pcap_get_selectable_fd] ++ init_curses ++
            [Event.mvprintw 0 0 "Device:" [], Event.attron_bold,
             Event.mvprintw 0 10 "%s\n" [Arg.str dev], Event.attroff_bold] ++
            (grab_packets E t0 ticks tbl).2.2) := by
  by_cases h : argc = 2
  · simp only [main, lookup_calls, if_pos h]
  · simp only [main, lookup_calls, if_neg h]

/-- What `main` does after the device selection, whatever the outcome: the
calls after `lookup_calls` never include `pcap_lookupdev`, they open no device
other than the selected one, and they begin by opening the selected one. -/
theorem main_after_selection {Table Pkt Frame : Type} (E : Engine Table Pkt Frame)
    (S : Setup) (argc : Int) (argv : List String) (t0 : timespec)
    (ticks : List (Tick Frame)) (tbl : Table) :
    ∃ rest : List (Event Pkt),
      (main E S argc argv t0 ticks tbl).2 = lookup_calls argc ++ rest ∧
      Event.pcap_lookupdev ∉ rest ∧
      (∀ d, Event.pcap_open_live d ∈ rest →
        (if argc = 2 then argv[1]? else S.lookupdev) = some d) ∧
      (∀ d, (if argc = 2 then argv[1]? else S.lookupdev) = some d →
        rest.head? = some (Event.pcap_open_live d)) := by
  have hg : ∀ e ∈ (grab_packets E t0 ticks tbl).2.2, e ≠ Event.pcap_lookupdev ∧
      ∀ d, e ≠ Event.pcap_open_live d := by
    intro e he
    have := grab_packets_is_interactive E t0 ticks tbl e he
    constructor
    · rintro rfl; simp [Event.is_interactive] at this
    · rintro d rfl; simp [Event.is_interactive] at this
  rw [main_selection]
  cases hsel : (if argc = 2 then argv[1]? else S.lookupdev) with
  | none =>
    exact ⟨_, rfl, by simp, by simp, by simp⟩
  | some dev =>
    simp only
    split_ifs
    · exact ⟨_, rfl, by simp, by simp, by simp⟩
    · exact ⟨_, rfl, by simp, by simp, by simp⟩
    · exact ⟨_, rfl, by simp, by simp, by simp⟩
    · exact ⟨_, rfl, by simp, by simp, by simp⟩
    · refine ⟨_, by simp only [List.append_assoc]; rfl, ?_, ?_, by simp⟩
      · simp only [init_curses, List.mem_append, List.mem_cons, List.mem_singleton,
          List.not_mem_nil, or_false, reduceCtorEq, false_or, or_self]
        intro h
        exact (hg _ h).1 rfl
      · intro d hd
        simp only [init_curses, List.mem_append, List.mem_cons, List.mem_singleton,
          List.not_mem_nil, or_false, reduceCtorEq, false_or, Event.pcap_open_live.injEq] at hd
        rcases hd with hd | hd
        · rw [hd]
        · exact absurd rfl ((hg _ hd).2 d)
    · refine ⟨_, by simp only [List.append_assoc]; rfl, ?_, ?_, by simp⟩
      · simp only [init_curses, List.mem_append, List.mem_cons, List.mem_singleton,
          List.not_mem_nil, or_false, reduceCtorEq, false_or, or_self]
        intro h
        exact (hg _ h).1 rfl
      · intro d hd
        simp only [init_curses, List.mem_append, List.mem_cons, List.mem_singleton,
          List.not_mem_nil, or_false, reduceCtorEq, false_or, Event.pcap_open_live.injEq] at hd
        rcases hd with hd | hd
        · rw [hd]
        · exact absurd rfl ((hg _ hd).2 d)

/-- C7: for every argument vector, when `argc == 2` `main` does not call
`pcap_lookupdev` and the only device it opens is `argv[1]`, which it opens first;
for any other `argc` its first call is `pcap_lookupdev` and the only device it
opens is the one `pcap_lookupdev` returned, opened right after. -/
theorem main_capture_source {Table Pkt Frame : Type} (E : Engine Table Pkt Frame)
    (S : Setup) (argc : Int) (argv : List String) (t0 : timespec)
    (ticks : List (Tick Frame)) (tbl : Table) :
    (argc = 2 →
      Event.pcap_lookupdev ∉ (main E S argc argv t0 ticks tbl).2 ∧
      (∀ d, Event.pcap_open_live d ∈ (main E S argc argv t0 ticks tbl).2 →
        argv[1]? = some d) ∧
      (∀ d, argv[1]? = some d →
        (main E S argc argv t0 ticks tbl).2.head? = some (Event.pcap_open_live d))) ∧
    (argc ≠ 2 →
      (main E S argc argv t0 ticks tbl).2.head? = some Event.pcap_lookupdev ∧
      (∀ d, Event.pcap_open_live d ∈ (main E S argc argv t0 ticks tbl).2 →
        S.lookupdev = some d) ∧
      (∀ d, S.lookupdev = some d →
        (main E S argc argv t0 ticks tbl).2[1]? = some (Event.pcap_open_live d))) := by
  obtain ⟨rest, hm, hnl, hopen, hhead⟩ := main_after_selection E S argc argv t0 ticks tbl
  rw [hm]
  refine ⟨fun h2 => ?_, fun h2 => ?_⟩
  · simp only [lookup_calls, if_pos h2, List.nil_append]
    simp only [if_pos h2] at hopen hhead
    exact ⟨hnl, hopen, hhead⟩
  · simp only [lookup_calls, if_neg h2, List.singleton_append, List.head?_cons,
      List.getElem?_cons_succ, List.mem_cons, reduceCtorEq, false_or, true_and]
    simp only [if_neg h2] at hopen hhead
    refine ⟨hopen, fun d hd => ?_⟩
    rw [← List.head?_eq_getElem?]
    exact hhead d hd

/-- Witness for C7: `jt eth1` opens `eth1` without a lookup; `jt` alone looks the
device up first. -/
theorem main_capture_source_witness :
    ((2 : Int) = 2 ∧
      (@main (List flow_record) flow_record (List Nat) demo_engine demo_setup 2 ["jt", "eth1"]
        ⟨0, 0⟩ [] []).2.head? = some (Event.pcap_open_live "eth1")) ∧
    ((1 : Int) ≠ 2 ∧
      (@main (List flow_record) flow_record (List Nat) demo_engine demo_setup 1 ["jt"]
        ⟨0, 0⟩ [] []).2.head? = some Event.pcap_lookupdev) :=
  ⟨⟨rfl, ((main_capture_source demo_engine demo_setup 2 ["jt", "eth1"] ⟨0, 0⟩ [] []).1
      rfl).2.2 "eth1" rfl⟩,
   ⟨by decide, ((main_capture_source demo_engine demo_setup 1 ["jt"] ⟨0, 0⟩ [] []).2
      (by decide)).1⟩⟩

/-- C3: `main` returns 0 if and only if all setup steps succeed and `grab_packets`
returns.  If a setup step fails, `main` returns 2, its last call writes to
standard error, and it makes no call of the interactive mode (nothing of
`init_curses` or `grab_packets`); the calls made stop at the failing step, so no
later setup step is attempted. -/
theorem main_exit_status {Table Pkt Frame : Type} (E : Engine Table Pkt Frame)
    (S : Setup) (argc : Int) (argv : List String) (t0 : timespec)
    (ticks : List (Tick Frame)) (tbl : Table) :
    ((main E S argc argv t0 ticks tbl).1 = some 0 ↔
      setup_succeeds S argc argv ∧ (grab_packets E t0 ticks tbl).1 = true) ∧
    (¬ setup_succeeds S argc argv →
      (main E S argc argv t0 ticks tbl).1 = some 2 ∧
      (∃ fmt args, (main E S argc argv t0 ticks tbl).2.getLast? =
        some (Event.fprintf_stderr fmt args)) ∧
      ∀ e ∈ (main E S argc argv t0 ticks tbl).2, e.is_interactive = false) ∧
    ((if argc = 2 then argv[1]? else S.lookupdev) = none →
      (main E S argc argv t0 ticks tbl).2 = lookup_calls argc ++
        [Event.fprintf_stderr "Couldn't find default device: %s\n" [Arg.str S.errbuf]]) ∧
    (∀ dev, (if argc = 2 then argv[1]? else S.lookupdev) = some dev →
      (S.open_live dev = false →
        (main E S argc argv t0 ticks tbl).2 = lookup_calls argc ++
          [Event.pcap_open_live dev,
           Event.fprintf_stderr "Couldn't open device %s: %s\n"
             [Arg.str dev, Arg.str S.errbuf]]) ∧
      (S.open_live dev = true → S.datalink ≠ DLT_EN10MB →
        (main E S argc argv t0 ticks tbl).2 = lookup_calls argc ++
          [Event.pcap_open_live dev, Event.pcap_datalink,
           Event.fprintf_stderr
             "Device %s doesn't provide Ethernet headers - not supported\n" [Arg.str dev]]) ∧
      (S.open_live dev = true → S.datalink = DLT_EN10MB → S.setnonblock ≠ 0 →
        (main E S argc argv t0 ticks tbl).2 = lookup_calls argc ++
          [Event.pcap_open_live dev, Event.pcap_datalink, Event.pcap_setnonblock,
           Event.fprintf_stderr "Non-blocking mode failed: %s\n" [Arg.str S.errbuf]]) ∧
      (S.open_live dev = true → S.datalink = DLT_EN10MB → S.setnonblock = 0 →
        S.selectable_fd = -1 →
        (main E S argc argv t0 ticks tbl).2 = lookup_calls argc ++
          [Event.pcap_open_live dev, Event.pcap_datalink, Event.pcap_setnonblock,
           Event.pcap_get_selectable_fd,
           Event.fprintf_stderr "pcap handle not selectable.\n" []])) := by
  have hlk : ∀ e ∈ @lookup_calls Pkt argc, e.is_interactive = false := by
    intro e he
    unfold lookup_calls at he
    split_ifs at he
    · simp at he
    · simp only [List.mem_singleton] at he
      subst he; rfl
  have hfail : ∀ (l : List (Event Pkt)) (fmt : String) (args : List Arg),
      (∀ e ∈ l, e.is_interactive = false) →
      (∃ f a, (lookup_calls argc ++ (l ++ [Event.fprintf_stderr fmt args])).getLast? =
        some (Event.fprintf_stderr f a)) ∧
      ∀ e ∈ lookup_calls argc ++ (l ++ [Event.fprintf_stderr fmt args]),
        e.is_interactive = false := by
    intro l fmt args hl
    refine ⟨⟨fmt, args, by simp [← List.append_assoc]⟩, ?_⟩
    intro e he
    simp only [List.mem_append, List.mem_singleton] at he
    rcases he with he | he | rfl
    · exact hlk e he
    · exact hl e he
    · rfl
  unfold setup_succeeds
  cases hsel : (if argc = 2 then argv[1]? else S.lookupdev) with
  | none =>
    have hm : main E S argc argv t0 ticks tbl = (some 2, lookup_calls argc ++
        [Event.fprintf_stderr "Couldn't find default device: %s\n" [Arg.str S.errbuf]]) := by
      rw [main_selection, hsel]
    rw [hm]
    refine ⟨by simp, fun _ => ⟨rfl, ?_⟩, fun _ => rfl, by simp⟩
    exact hfail [] _ _ (by simp)
  | some dev =>
    by_cases h1 : S.open_live dev = false
    · have hm : main E S argc argv t0 ticks tbl = (some 2, lookup_calls argc ++
          [Event.pcap_open_live dev,
           Event.fprintf_stderr "Couldn't open device %s: %s\n"
             [Arg.str dev, Arg.str S.errbuf]]) := by
        rw [main_selection, hsel]
        simp only
        rw [if_pos h1]
      rw [hm]
      refine ⟨by simp [h1], fun _ => ⟨rfl, ?_⟩, by simp, ?_⟩
      · exact hfail [Event.pcap_open_live dev] _ _
          (by intro e he; simp only [List.mem_singleton] at he; subst he; rfl)
      · intro d hd
        have hdd : dev = d := by simpa using hd
        subst hdd
        simp [h1]
    · have h1t : S.open_live dev = true := by simpa using h1
      by_cases h2 : S.datalink ≠ DLT_EN10MB
      · have hm : main E S argc argv t0 ticks tbl = (some 2, lookup_calls argc ++
            [Event.pcap_open_live dev, Event.pcap_datalink,
             Event.fprintf_stderr
               "Device %s doesn't provide Ethernet headers - not supported\n"
               [Arg.str dev]]) := by
          rw [main_selection, hsel]
          simp only
          rw [if_neg h1, if_pos h2]
        rw [hm]
        refine ⟨by simp [h2], fun _ => ⟨rfl, ?_⟩, by simp, ?_⟩
        · exact hfail [Event.pcap_open_live dev, Event.pcap_datalink] _ _
            (by intro e he
                simp only [List.mem_cons, List.mem_singleton, List.not_mem_nil,
                  or_false] at he
                rcases he with rfl | rfl <;> rfl)
        · intro d hd
          have hdd : dev = d := by simpa using hd
          subst hdd
          simp [h1t, h2]
      · have h2t : S.datalink = DLT_EN10MB := not_not.1 h2
        by_cases h3 : S.setnonblock ≠ 0
        · have hm : main E S argc argv t0 ticks tbl = (some 2, lookup_calls argc ++
              [Event.pcap_open_live dev, Event.pcap_datalink, Event.pcap_setnonblock,
               Event.fprintf_stderr "Non-blocking mode failed: %s\n"
                 [Arg.str S.errbuf]]) := by
            rw [main_selection, hsel]
            simp only
            rw [if_neg h1, if_neg h2, if_pos h3]
          rw [hm]
          refine ⟨by simp [h3], fun _ => ⟨rfl, ?_⟩, by simp, ?_⟩
          · exact hfail [Event.pcap_open_live dev, Event.pcap_datalink,
              Event.pcap_setnonblock] _ _
              (by intro e he
                  simp only [List.mem_cons, List.mem_singleton, List.not_mem_nil,
                    or_false] at he
                  rcases he with rfl | rfl | rfl <;> rfl)
          · intro d hd
            have hdd : dev = d := by simpa using hd
            subst hdd
            simp [h1t, h2t, h3]
        · have h3t : S.setnonblock = 0 := not_not.1 h3
          by_cases h4 : -1 = S.selectable_fd
          · have hm : main E S argc argv t0 ticks tbl = (some 2, lookup_calls argc ++
                [Event.pcap_open_live dev, Event.pcap_datalink, Event.pcap_setnonblock,
                 Event.pcap_get_selectable_fd,
                 Event.fprintf_stderr "pcap handle not selectable.\n" []]) := by
              rw [main_selection, hsel]
              simp only
              rw [if_neg h1, if_neg h2, if_neg h3, if_pos h4]
            rw [hm]
            refine ⟨by simp [h4.symm], fun _ => ⟨rfl, ?_⟩, by simp, ?_⟩
            · exact hfail [Event.pcap_open_live dev, Event.pcap_datalink,
                Event.pcap_setnonblock, Event.pcap_get_selectable_fd] _ _
                (by intro e he
                    simp only [List.mem_cons, List.mem_singleton, List.not_mem_nil,
                      or_false] at he
                    rcases he with rfl | rfl | rfl | rfl <;> rfl)
            · intro d hd
              have hdd : dev = d := by simpa using hd
              subst hdd
              simp [h1t, h2t, h3t]
          · have h4t : S.selectable_fd ≠ -1 := fun h => h4 h.symm
            have hok : ∃ d, some dev = some d ∧ S.open_live d = true ∧
                S.datalink = DLT_EN10MB ∧ S.setnonblock = 0 ∧ S.selectable_fd ≠ -1 :=
              ⟨dev, rfl, h1t, h2t, h3t, h4t⟩
            refine ⟨?_, fun hns => absurd hok hns, by simp, ?_⟩
            · rw [main_selection, hsel]
              simp only
              rw [if_neg h1, if_neg h2, if_neg h3, if_neg h4]
              by_cases hg : (grab_packets E t0 ticks tbl).1 = true
              · rw [if_pos hg]
                exact ⟨fun _ => ⟨hok, hg⟩, fun _ => rfl⟩
              · rw [if_neg hg]
                exact ⟨fun h => (by cases h), fun h => absurd h.2 hg⟩
            · intro d hd
              have hdd : dev = d := by simpa using hd
              subst hdd
              simp [h1t, h2t, h3t, h4t]

/-- Witness for C3: on a device that is not Ethernet the setup fails and `main`
returns 2; with every step succeeding and `q` pressed, `main` returns 0. -/
theorem main_exit_status_witness :
    (¬ setup_succeeds demo_setup_not_ethernet 1 ["jt"] ∧
      (@main (List flow_record) flow_record (List Nat) demo_engine demo_setup_not_ethernet 1
        ["jt"] ⟨0, 0⟩ [demo_quit_tick] []).1 = some 2) ∧
    ((setup_succeeds demo_setup 1 ["jt"] ∧
        (grab_packets demo_engine ⟨0, 0⟩ [demo_quit_tick] []).1 = true) ∧
      (@main (List flow_record) flow_record (List Nat) demo_engine demo_setup 1
        ["jt"] ⟨0, 0⟩ [demo_quit_tick] []).1 = some 0) :=
  ⟨⟨fun ⟨_, _, _, h, _⟩ => absurd h (by decide),
    ((main_exit_status demo_engine demo_setup_not_ethernet 1 ["jt"] ⟨0, 0⟩
        [demo_quit_tick] []).2.1 (fun ⟨_, _, _, h, _⟩ => absurd h (by decide))).1⟩,
   ⟨⟨⟨"eth0", by decide, by decide, by decide, by decide, by decide⟩, by decide⟩,
    (main_exit_status demo_engine demo_setup 1 ["jt"] ⟨0, 0⟩ [demo_quit_tick] []).1.2
      ⟨⟨"eth0", by decide, by decide, by decide, by decide, by decide⟩, by decide⟩⟩⟩

end JitterTrap
